import Mathlib

/-!
Shallow embedding of `SpirvBuilder`
(`tools/clang/lib/SPIRV/SpirvBuilder.cpp`), the SPIR-V IR construction
layer of the DirectXShaderCompiler SPIR-V backend.

Modelling conventions:
* Arena pointers (`SpirvInstruction *`, `SpirvBasicBlock *`, ...) become
  natural-number handles drawn from a per-builder fresh counter `nextId`
  (pointer identity becomes handle identity).  A nullable pointer operand
  becomes `Option Nat` (`none` = `nullptr`).
* `assert(...)` contract failures become `none` results: every builder
  operation returns `Option` and yields `none` exactly when the source
  would trip an assertion.  A `none` result carries no partially built
  state, matching "abort construction immediately".
* Opaque collaborator values (`QualType`, `SourceLocation`, scopes, masks,
  control masks, `GLSLstd450` selectors) are embedded as small inductives
  or plain `Nat` tags; the builder never inspects them, it only stores
  them on nodes.
-/

namespace Spirv

/-- Semantic type descriptors: opaque to the builder except for the two
concrete types the builder itself supplies (`astContext.UnsignedIntTy`
for sparse residency status values and `astContext.BoolTy` for
`OpImageSparseTexelsResident` results). -/
inductive QualType where
  | unsignedInt : QualType
  | boolTy : QualType
  | otherTy : Nat → QualType
deriving DecidableEq, Repr

/-- The subset of `spv::Op` the builder mentions by name, plus a generic
constructor for every other opcode value (the source treats all remaining
opcodes uniformly through `default:` switch branches). -/
inductive Op where
  | OpImageSampleImplicitLod
  | OpImageSampleExplicitLod
  | OpImageSampleDrefImplicitLod
  | OpImageSampleDrefExplicitLod
  | OpImageSparseSampleImplicitLod
  | OpImageSparseSampleExplicitLod
  | OpImageSparseSampleDrefImplicitLod
  | OpImageSparseSampleDrefExplicitLod
  | OpImageFetch
  | OpImageSparseFetch
  | OpImageRead
  | OpImageSparseRead
  | OpImageWrite
  | OpImageGather
  | OpImageDrefGather
  | OpImageSparseGather
  | OpImageSparseDrefGather
  | OpImageQuerySize
  | OpImageQueryLevels
  | OpImageQuerySamples
  | OpImageQueryLod
  | OpImageQuerySizeLod
  | OpAtomicCompareExchange
  | OpMax
  | OpOther : Nat → Op
deriving DecidableEq, Repr

/-- Capability tokens (`spv::Capability`).  `storageImageFor t` stands for
the token returned by the external resolver
`TypeTranslator::getCapabilityForStorageImageReadWrite` for image type
`t`; the builder treats it as opaque. -/
inductive Capability where
  | ImageQuery
  | ImageGatherExtended
  | MinLod
  | SparseResidency
  | storageImageFor : QualType → Capability
deriving DecidableEq, Repr

/-- Modelled from the spec: the external capability resolver
`TypeTranslator::getCapabilityForStorageImageReadWrite` (declared in
`TypeTranslator.h`, not part of the provided source); the spec describes
it only as `resolveStorageImageCapability(imageType) -> CapabilityToken`,
an opaque map from image type to one capability token. -/
def getCapabilityForStorageImageReadWrite (imageType : QualType) : Capability :=
  Capability.storageImageFor imageType

/-- SPIR-V image operand bits, "from least significant bit to most
significant bit: Bias, Lod, Grad, ConstOffset, Offset, ConstOffsets,
Sample, MinLod" (comment at the top of `composeImageOperandsMask`). -/
def ImageOperandsMaskNone : Nat := 0

/-- Bias bit of the image operand mask. -/
def ImageOperandsBias : Nat := 1

/-- Lod bit of the image operand mask. -/
def ImageOperandsLod : Nat := 2

/-- Grad bit of the image operand mask. -/
def ImageOperandsGrad : Nat := 4

/-- ConstOffset bit of the image operand mask. -/
def ImageOperandsConstOffset : Nat := 8

/-- Offset bit of the image operand mask. -/
def ImageOperandsOffset : Nat := 16

/-- ConstOffsets bit of the image operand mask. -/
def ImageOperandsConstOffsets : Nat := 32

/-- Sample bit of the image operand mask. -/
def ImageOperandsSample : Nat := 64

/-- MinLod bit of the image operand mask. -/
def ImageOperandsMinLod : Nat := 128

/-- Payload of one IR instruction node: one constructor per
`Spirv*` instruction class the builder instantiates.  Fields follow the
corresponding C++ constructor-call argument lists (result-id placeholders
are dropped: node identity lives in `Node.id`).  Handles of instruction
operands are `Nat` when the source never passes `nullptr` there and
`Option Nat` when it may. -/
inductive Instr where
  | composite (resultType : QualType) (loc : Nat) (constituents : List Nat)
  | compositeExtract (resultType : QualType) (loc : Nat) (composite : Nat) (indexes : List Nat)
  | compositeInsert (resultType : QualType) (loc : Nat) (composite object : Nat) (indices : List Nat)
  | vectorShuffle (resultType : QualType) (loc : Nat) (vector1 vector2 : Nat) (selectors : List Nat)
  | load (resultType : QualType) (loc : Nat) (pointer : Nat)
  | store (loc : Nat) (address value : Nat)
  | functionCall (returnType : QualType) (loc : Nat) (func : Nat) (params : List Nat)
  | accessChain (resultType : QualType) (loc : Nat) (base : Nat) (indexes : List Nat)
  | unaryOp (op : Op) (resultType : QualType) (loc : Nat) (operand : Nat)
  | binaryOp (op : Op) (resultType : QualType) (loc : Nat) (lhs rhs : Nat)
  | specConstantBinaryOp (op : Op) (resultType : QualType) (loc : Nat) (lhs rhs : Nat)
  | groupNonUniformElect (resultType : QualType) (loc : Nat) (execScope : Nat)
  | groupNonUniformUnaryOp (op : Op) (resultType : QualType) (loc : Nat)
      (execScope : Nat) (groupOp : Option Nat) (operand : Nat)
  | groupNonUniformBinaryOp (op : Op) (resultType : QualType) (loc : Nat)
      (execScope : Nat) (operand1 operand2 : Nat)
  | atomic (op : Op) (resultType : QualType) (loc : Nat) (pointer scope memorySemantics : Nat)
      (unequalSemantics : Option Nat) (value : Nat) (comparator : Option Nat)
  | imageTexelPointer (resultType : QualType) (loc : Nat) (image coordinate sample : Nat)
  | sampledImage (imageType : QualType) (loc : Nat) (image sampler : Nat)
  | imageOp (op : Op) (resultType : QualType) (loc : Nat) (image coordinate mask : Nat)
      (dref bias lod gradDx gradDy constOffset varOffset constOffsets sample minLod
       component texel : Option Nat)
  | imageSparseTexelsResident (resultType : QualType) (loc : Nat) (residentCode : Nat)
  | select (resultType : QualType) (loc : Nat) (condition trueValue falseValue : Nat)
  | selectionMerge (loc : Nat) (mergeBlock selectionControl : Nat)
  | switch (loc : Nat) (selector defaultLabel : Nat) (targets : List (Nat × Nat))
  | kill (loc : Nat)
  | loopMerge (loc : Nat) (mergeBlock continueBlock loopControl : Nat)
  | branch (loc : Nat) (target : Nat)
  | branchConditional (loc : Nat) (condition trueLabel falseLabel : Nat)
  | retrn (loc : Nat) (value : Option Nat)
  | extInst (resultType : QualType) (loc : Nat) (set inst : Nat) (operands : List Nat)
  | barrier (loc : Nat) (memoryScope memorySemantics : Nat) (execScope : Option Nat)
  | bitFieldInsert (resultType : QualType) (loc : Nat) (base insertVal offset count : Nat)
  | bitFieldExtract (resultType : QualType) (loc : Nat) (base offset count : Nat) (isSigned : Bool)
deriving DecidableEq, Repr

/-- One arena-allocated instruction node: its handle plus its payload. -/
structure Node where
  id : Nat
  instr : Instr
deriving DecidableEq, Repr

/-- Basic block: display label, append-only instruction sequence,
successor edges and the optional merge / continue targets
(`SpirvBasicBlock`). -/
structure SpirvBasicBlock where
  id : Nat
  name : String
  instructions : List Node
  successors : List Nat
  mergeTarget : Option Nat
  continueTarget : Option Nat
deriving DecidableEq, Repr

/-- Function parameter node (`SpirvFunctionParameter`). -/
structure SpirvFunctionParameter where
  id : Nat
  ptrType : QualType
  loc : Nat
  debugName : String
deriving DecidableEq, Repr

/-- Function-local variable node (`SpirvVariable` with
`spv::StorageClass::Function`). -/
structure SpirvVariable where
  id : Nat
  valueType : QualType
  loc : Nat
  debugName : String
  init : Option Nat
deriving DecidableEq, Repr

/-- Function container (`SpirvFunction`): parameters, local variables and
basic blocks in attachment order. -/
structure SpirvFunction where
  id : Nat
  returnType : QualType
  loc : Nat
  funcName : String
  parameters : List SpirvFunctionParameter
  localVariables : List SpirvVariable
  basicBlocks : List SpirvBasicBlock
deriving DecidableEq, Repr

/-- Module container (`SpirvModule`): attached functions plus the
module-wide capability set (kept as a duplicate-free list). -/
structure SpirvModule where
  functions : List SpirvFunction
  capabilities : List Capability
deriving DecidableEq, Repr

/-- Builder state: the module under construction, the active function
(`none` = Idle), the pending basic-block list, the insertion cursor
(`none` = unset, `some bid` = positioned on the block with handle `bid`)
and the arena fresh-handle counter. -/
structure SpirvBuilder where
  module : SpirvModule
  function : Option SpirvFunction
  basicBlocks : List SpirvBasicBlock
  insertPoint : Option Nat
  nextId : Nat
deriving DecidableEq, Repr

/-- The state produced by the `SpirvBuilder` constructor: fresh empty
module, no active function, no pending blocks, cursor unset. -/
def SpirvBuilder.init : SpirvBuilder :=
  { module := { functions := [], capabilities := [] }
    function := none
    basicBlocks := []
    insertPoint := none
    nextId := 0 }

/-- Idempotent capability accumulation (`requireCapability`): adds the
token to the module-wide set if it is not already present. -/
def requireCapability (s : SpirvBuilder) (cap : Capability) : SpirvBuilder :=
  { s with module :=
      { s.module with capabilities :=
          if cap ∈ s.module.capabilities then s.module.capabilities
          else s.module.capabilities ++ [cap] } }

/-- Look a pending basic block up by handle. -/
def getBlock (bs : List SpirvBasicBlock) (bid : Nat) : Option SpirvBasicBlock :=
  bs.find? (fun b => b.id == bid)

/-- Apply an update to the pending block with handle `bid`. -/
def mapBlock (bs : List SpirvBasicBlock) (bid : Nat)
    (f : SpirvBasicBlock → SpirvBasicBlock) : List SpirvBasicBlock :=
  bs.map (fun b => if b.id == bid then f b else b)

/-- Embedding of `insertPoint->addInstruction(n)`: append node `n` to the
block with handle `bid`. -/
def addToBlock (bs : List SpirvBasicBlock) (bid : Nat) (n : Node) :
    List SpirvBasicBlock :=
  mapBlock bs bid (fun b => { b with instructions := b.instructions ++ [n] })

/-- Embedding of `SpirvBuilder::beginFunction`: asserts no function is open
("found nested function"), allocates the function node and makes it
active. -/
def beginFunction (s : SpirvBuilder) (returnType : QualType) (loc : Nat)
    (funcName : String) : Option (SpirvBuilder × Nat) :=
  match s.function with
  | some _ => none
  | none =>
    let f : SpirvFunction :=
      { id := s.nextId, returnType := returnType, loc := loc, funcName := funcName
        parameters := [], localVariables := [], basicBlocks := [] }
    some ({ s with function := some f, nextId := s.nextId + 1 }, f.id)

/-- Embedding of `SpirvBuilder::addFnParam`: asserts a function is open ("found
detached parameter"), allocates the parameter and appends it to the
active function. -/
def addFnParam (s : SpirvBuilder) (ptrType : QualType) (loc : Nat)
    (name : String) : Option (SpirvBuilder × Nat) :=
  match s.function with
  | none => none
  | some f =>
    let param : SpirvFunctionParameter :=
      { id := s.nextId, ptrType := ptrType, loc := loc, debugName := name }
    some ({ s with
              function := some { f with parameters := f.parameters ++ [param] }
              nextId := s.nextId + 1 }, param.id)

/-- Embedding of `SpirvBuilder::addFnVar`: asserts a function is open ("found detached
local variable"), allocates the variable and appends it to the active
function. -/
def addFnVar (s : SpirvBuilder) (valueType : QualType) (loc : Nat)
    (name : String) (init : Option Nat) : Option (SpirvBuilder × Nat) :=
  match s.function with
  | none => none
  | some f =>
    let var : SpirvVariable :=
      { id := s.nextId, valueType := valueType, loc := loc, debugName := name
        init := init }
    some ({ s with
              function := some { f with localVariables := f.localVariables ++ [var] }
              nextId := s.nextId + 1 }, var.id)

/-- Embedding of `SpirvBuilder::endFunction`: asserts a function is open ("no active
function"), moves every pending basic block into the function in
creation order, clears the pending list, attaches the function to the
module, and clears the active function and the cursor. -/
def endFunction (s : SpirvBuilder) : Option SpirvBuilder :=
  match s.function with
  | none => none
  | some f =>
    let f := { f with basicBlocks := f.basicBlocks ++ s.basicBlocks }
    some { s with
             module := { s.module with functions := s.module.functions ++ [f] }
             basicBlocks := []
             function := none
             insertPoint := none }

/-- Embedding of `SpirvBuilder::createBasicBlock`: asserts a function is open ("found
detached basic block"), allocates a block and records it in the pending
list (not yet attached to the function). -/
def createBasicBlock (s : SpirvBuilder) (name : String) :
    Option (SpirvBuilder × Nat) :=
  match s.function with
  | none => none
  | some _ =>
    let bb : SpirvBasicBlock :=
      { id := s.nextId, name := name, instructions := [], successors := []
        mergeTarget := none, continueTarget := none }
    some ({ s with basicBlocks := s.basicBlocks ++ [bb], nextId := s.nextId + 1 },
          bb.id)

/-- Modelled from the spec: cursor positioning (`setInsertPoint`,
declared in `SpirvBuilder.h`, not part of the provided source).  Per
§4.1 the cursor is a sub-state of FunctionOpen that is "either unset or
positioned on some basic block belonging to the active function", so
positioning requires an open function and a pending block. -/
def setInsertPoint (s : SpirvBuilder) (bid : Nat) : Option SpirvBuilder :=
  match s.function with
  | none => none
  | some _ =>
    match getBlock s.basicBlocks bid with
    | none => none
    | some _ => some { s with insertPoint := some bid }

/-- Embedding of `SpirvBuilder::addSuccessor`: asserts the cursor is positioned
("null insert point") and records a successor edge on the cursor
block. -/
def addSuccessor (s : SpirvBuilder) (successorBB : Nat) : Option SpirvBuilder :=
  match s.insertPoint with
  | none => none
  | some bid =>
    let bs := mapBlock s.basicBlocks bid
      (fun b => { b with successors := b.successors ++ [successorBB] })
    some { s with basicBlocks := bs }

/-- Embedding of `SpirvBuilder::setMergeTarget`: asserts the cursor is positioned
("null insert point") and sets the merge target of the cursor block. -/
def setMergeTarget (s : SpirvBuilder) (mergeLabel : Nat) : Option SpirvBuilder :=
  match s.insertPoint with
  | none => none
  | some bid =>
    let bs := mapBlock s.basicBlocks bid
      (fun b => { b with mergeTarget := some mergeLabel })
    some { s with basicBlocks := bs }

/-- Embedding of `SpirvBuilder::setContinueTarget`: asserts the cursor is positioned
("null insert point") and sets the continue target of the cursor
block. -/
def setContinueTarget (s : SpirvBuilder) (continueLabel : Nat) :
    Option SpirvBuilder :=
  match s.insertPoint with
  | none => none
  | some bid =>
    let bs := mapBlock s.basicBlocks bid
      (fun b => { b with continueTarget := some continueLabel })
    some { s with basicBlocks := bs }

/-- Allocate one instruction node at the cursor block and return the
updated builder plus the node handle.  This is the shared
"`new (context) ...` then `insertPoint->addInstruction(...)`" tail of
every simple constructor; callers have already checked the cursor. -/
def emitAt (s : SpirvBuilder) (bid : Nat) (i : Instr) : SpirvBuilder × Nat :=
  ({ s with
       nextId := s.nextId + 1
       basicBlocks := addToBlock s.basicBlocks bid ⟨s.nextId, i⟩ }, s.nextId)

/-- Embedding of `SpirvBuilder::createCompositeConstruct`. -/
def createCompositeConstruct (s : SpirvBuilder) (resultType : QualType)
    (constituents : List Nat) (loc : Nat) : Option (SpirvBuilder × Nat) :=
  match s.insertPoint with
  | none => none
  | some bid => some (emitAt s bid (.composite resultType loc constituents))

/-- Embedding of `SpirvBuilder::createCompositeExtract`. -/
def createCompositeExtract (s : SpirvBuilder) (resultType : QualType)
    (composite : Nat) (indexes : List Nat) (loc : Nat) :
    Option (SpirvBuilder × Nat) :=
  match s.insertPoint with
  | none => none
  | some bid => some (emitAt s bid (.compositeExtract resultType loc composite indexes))

/-- Embedding of `SpirvBuilder::createCompositeInsert`. -/
def createCompositeInsert (s : SpirvBuilder) (resultType : QualType)
    (composite : Nat) (indices : List Nat) (object : Nat) (loc : Nat) :
    Option (SpirvBuilder × Nat) :=
  match s.insertPoint with
  | none => none
  | some bid => some (emitAt s bid (.compositeInsert resultType loc composite object indices))

/-- Embedding of `SpirvBuilder::createVectorShuffle`. -/
def createVectorShuffle (s : SpirvBuilder) (resultType : QualType)
    (vector1 vector2 : Nat) (selectors : List Nat) (loc : Nat) :
    Option (SpirvBuilder × Nat) :=
  match s.insertPoint with
  | none => none
  | some bid => some (emitAt s bid (.vectorShuffle resultType loc vector1 vector2 selectors))

/-- Embedding of `SpirvBuilder::createLoad`. -/
def createLoad (s : SpirvBuilder) (resultType : QualType) (pointer : Nat)
    (loc : Nat) : Option (SpirvBuilder × Nat) :=
  match s.insertPoint with
  | none => none
  | some bid => some (emitAt s bid (.load resultType loc pointer))

/-- Embedding of `SpirvBuilder::createStore` (void result). -/
def createStore (s : SpirvBuilder) (address value : Nat) (loc : Nat) :
    Option SpirvBuilder :=
  match s.insertPoint with
  | none => none
  | some bid => some (emitAt s bid (.store loc address value)).1

/-- Embedding of `SpirvBuilder::createFunctionCall`. -/
def createFunctionCall (s : SpirvBuilder) (returnType : QualType) (func : Nat)
    (params : List Nat) (loc : Nat) : Option (SpirvBuilder × Nat) :=
  match s.insertPoint with
  | none => none
  | some bid => some (emitAt s bid (.functionCall returnType loc func params))

/-- Embedding of `SpirvBuilder::createAccessChain`. -/
def createAccessChain (s : SpirvBuilder) (resultType : QualType) (base : Nat)
    (indexes : List Nat) (loc : Nat) : Option (SpirvBuilder × Nat) :=
  match s.insertPoint with
  | none => none
  | some bid => some (emitAt s bid (.accessChain resultType loc base indexes))

/-- Embedding of `SpirvBuilder::createUnaryOp`: emits the node, then requires
`ImageQuery` for the three image query opcodes of its `switch`. -/
def createUnaryOp (s : SpirvBuilder) (op : Op) (resultType : QualType)
    (operand : Nat) (loc : Nat) : Option (SpirvBuilder × Nat) :=
  match s.insertPoint with
  | none => none
  | some bid =>
    let (s, r) := emitAt s bid (.unaryOp op resultType loc operand)
    let s :=
      match op with
      | .OpImageQuerySize | .OpImageQueryLevels | .OpImageQuerySamples =>
          requireCapability s .ImageQuery
      | _ => s
    some (s, r)

/-- Embedding of `SpirvBuilder::createBinaryOp`: emits the node, then requires
`ImageQuery` for the two image query opcodes of its `switch`. -/
def createBinaryOp (s : SpirvBuilder) (op : Op) (resultType : QualType)
    (lhs rhs : Nat) (loc : Nat) : Option (SpirvBuilder × Nat) :=
  match s.insertPoint with
  | none => none
  | some bid =>
    let (s, r) := emitAt s bid (.binaryOp op resultType loc lhs rhs)
    let s :=
      match op with
      | .OpImageQueryLod | .OpImageQuerySizeLod =>
          requireCapability s .ImageQuery
      | _ => s
    some (s, r)

/-- Embedding of `SpirvBuilder::createSpecConstantBinaryOp`. -/
def createSpecConstantBinaryOp (s : SpirvBuilder) (op : Op)
    (resultType : QualType) (lhs rhs : Nat) (loc : Nat) :
    Option (SpirvBuilder × Nat) :=
  match s.insertPoint with
  | none => none
  | some bid => some (emitAt s bid (.specConstantBinaryOp op resultType loc lhs rhs))

/-- Embedding of `SpirvBuilder::createGroupNonUniformElect`. -/
def createGroupNonUniformElect (s : SpirvBuilder) (op : Op)
    (resultType : QualType) (execScope : Nat) (loc : Nat) :
    Option (SpirvBuilder × Nat) :=
  match s.insertPoint with
  | none => none
  | some bid => some (emitAt s bid (.groupNonUniformElect resultType loc execScope))

/-- Embedding of `SpirvBuilder::createGroupNonUniformUnaryOp`. -/
def createGroupNonUniformUnaryOp (s : SpirvBuilder) (op : Op)
    (resultType : QualType) (execScope : Nat) (operand : Nat)
    (groupOp : Option Nat) (loc : Nat) : Option (SpirvBuilder × Nat) :=
  match s.insertPoint with
  | none => none
  | some bid =>
      some (emitAt s bid (.groupNonUniformUnaryOp op resultType loc execScope groupOp operand))

/-- Embedding of `SpirvBuilder::createGroupNonUniformBinaryOp`. -/
def createGroupNonUniformBinaryOp (s : SpirvBuilder) (op : Op)
    (resultType : QualType) (execScope : Nat) (operand1 operand2 : Nat)
    (loc : Nat) : Option (SpirvBuilder × Nat) :=
  match s.insertPoint with
  | none => none
  | some bid =>
      some (emitAt s bid (.groupNonUniformBinaryOp op resultType loc execScope operand1 operand2))

/-- Embedding of `SpirvBuilder::createAtomicOp` (generic read-modify-write form: one
memory-semantics mask, no comparator). -/
def createAtomicOp (s : SpirvBuilder) (opcode : Op) (resultType : QualType)
    (originalValuePtr scope memorySemantics valueToOp : Nat) (loc : Nat) :
    Option (SpirvBuilder × Nat) :=
  match s.insertPoint with
  | none => none
  | some bid =>
      some (emitAt s bid
        (.atomic opcode resultType loc originalValuePtr scope memorySemantics
          none valueToOp none))

/-- Embedding of `SpirvBuilder::createAtomicCompareExchange`: fixed opcode, two
memory-semantics masks and a comparator. -/
def createAtomicCompareExchange (s : SpirvBuilder) (resultType : QualType)
    (originalValuePtr scope equalMemorySemantics unequalMemorySemantics
     valueToOp comparator : Nat) (loc : Nat) : Option (SpirvBuilder × Nat) :=
  match s.insertPoint with
  | none => none
  | some bid =>
      some (emitAt s bid
        (.atomic .OpAtomicCompareExchange resultType loc originalValuePtr scope
          equalMemorySemantics (some unequalMemorySemantics) valueToOp
          (some comparator)))

/-- Embedding of `SpirvBuilder::createImageTexelPointer`. -/
def createImageTexelPointer (s : SpirvBuilder) (resultType : QualType)
    (image coordinate sample : Nat) (loc : Nat) : Option (SpirvBuilder × Nat) :=
  match s.insertPoint with
  | none => none
  | some bid => some (emitAt s bid (.imageTexelPointer resultType loc image coordinate sample))

/-- Embedding of `SpirvBuilder::createImageSparseTexelsResident`: boolean-typed test of
a residency status code. -/
def createImageSparseTexelsResident (s : SpirvBuilder) (residentCode : Nat)
    (loc : Nat) : Option (SpirvBuilder × Nat) :=
  match s.insertPoint with
  | none => none
  | some bid =>
      some (emitAt s bid (.imageSparseTexelsResident QualType.boolTy loc residentCode))

/-- Embedding of `SpirvBuilder::createSelect`. -/
def createSelect (s : SpirvBuilder) (resultType : QualType)
    (condition trueValue falseValue : Nat) (loc : Nat) :
    Option (SpirvBuilder × Nat) :=
  match s.insertPoint with
  | none => none
  | some bid => some (emitAt s bid (.select resultType loc condition trueValue falseValue))

/-- Embedding of `SpirvBuilder::createSwitch` (void result): a selection-merge marker
with `MaskNone` control, then the switch instruction. -/
def createSwitch (s : SpirvBuilder) (mergeLabel selector defaultLabel : Nat)
    (target : List (Nat × Nat)) (loc : Nat) : Option SpirvBuilder :=
  match s.insertPoint with
  | none => none
  | some bid =>
    let (s, _) := emitAt s bid (.selectionMerge loc mergeLabel 0)
    some (emitAt s bid (.switch loc selector defaultLabel target)).1

/-- Embedding of `SpirvBuilder::createKill` (void result). -/
def createKill (s : SpirvBuilder) (loc : Nat) : Option SpirvBuilder :=
  match s.insertPoint with
  | none => none
  | some bid => some (emitAt s bid (.kill loc)).1

/-- Embedding of `SpirvBuilder::createBranch` (void result): a loop-merge marker first
when both `mergeBB` and `continueBB` are supplied, then the unconditional
branch. -/
def createBranch (s : SpirvBuilder) (targetLabel : Nat)
    (mergeBB continueBB : Option Nat) (loopControl : Nat) (loc : Nat) :
    Option SpirvBuilder :=
  match s.insertPoint with
  | none => none
  | some bid =>
    let s :=
      match mergeBB, continueBB with
      | some m, some c => (emitAt s bid (.loopMerge loc m c loopControl)).1
      | _, _ => s
    some (emitAt s bid (.branch loc targetLabel)).1

/-- Embedding of `SpirvBuilder::createConditionalBranch` (void result): when
`mergeLabel` is supplied, one merge marker first — a loop-merge if
`continueLabel` is also supplied, a selection-merge otherwise — then the
conditional branch. -/
def createConditionalBranch (s : SpirvBuilder) (condition trueLabel falseLabel : Nat)
    (mergeLabel continueLabel : Option Nat) (selectionControl loopControl : Nat)
    (loc : Nat) : Option SpirvBuilder :=
  match s.insertPoint with
  | none => none
  | some bid =>
    let s :=
      match mergeLabel with
      | some m =>
        match continueLabel with
        | some c => (emitAt s bid (.loopMerge loc m c loopControl)).1
        | none => (emitAt s bid (.selectionMerge loc m selectionControl)).1
      | none => s
    some (emitAt s bid (.branchConditional loc condition trueLabel falseLabel)).1

/-- Embedding of `SpirvBuilder::createReturn` (void result). -/
def createReturn (s : SpirvBuilder) (loc : Nat) : Option SpirvBuilder :=
  match s.insertPoint with
  | none => none
  | some bid => some (emitAt s bid (.retrn loc none)).1

/-- Embedding of `SpirvBuilder::createReturnValue` (void result). -/
def createReturnValue (s : SpirvBuilder) (value : Nat) (loc : Nat) :
    Option SpirvBuilder :=
  match s.insertPoint with
  | none => none
  | some bid => some (emitAt s bid (.retrn loc (some value))).1

/-- Embedding of `SpirvBuilder::createExtInst`. -/
def createExtInst (s : SpirvBuilder) (resultType : QualType) (set inst : Nat)
    (operands : List Nat) (loc : Nat) : Option (SpirvBuilder × Nat) :=
  match s.insertPoint with
  | none => none
  | some bid => some (emitAt s bid (.extInst resultType loc set inst operands))

/-- Embedding of `SpirvBuilder::createBarrier` (void result). -/
def createBarrier (s : SpirvBuilder) (memoryScope memorySemantics : Nat)
    (exec : Option Nat) (loc : Nat) : Option SpirvBuilder :=
  match s.insertPoint with
  | none => none
  | some bid => some (emitAt s bid (.barrier loc memoryScope memorySemantics exec)).1

/-- Embedding of `SpirvBuilder::createBitFieldInsert`. -/
def createBitFieldInsert (s : SpirvBuilder) (resultType : QualType)
    (base insertVal offset count : Nat) (loc : Nat) :
    Option (SpirvBuilder × Nat) :=
  match s.insertPoint with
  | none => none
  | some bid => some (emitAt s bid (.bitFieldInsert resultType loc base insertVal offset count))

/-- Embedding of `SpirvBuilder::createBitFieldExtract`. -/
def createBitFieldExtract (s : SpirvBuilder) (resultType : QualType)
    (base offset count : Nat) (isSigned : Bool) (loc : Nat) :
    Option (SpirvBuilder × Nat) :=
  match s.insertPoint with
  | none => none
  | some bid => some (emitAt s bid (.bitFieldExtract resultType loc base offset count isSigned))

/-- Embedding of `SpirvBuilder::composeImageOperandsMask`: folds the presence flags of
the eight optional image operands into the mask, in the fixed bit order
Bias, Lod, Grad, ConstOffset, Offset, ConstOffsets, Sample, MinLod, and
requires `ImageGatherExtended` for a variable offset or a
constant-offsets list and `MinLod` for a minimum level-of-detail. -/
def composeImageOperandsMask (s : SpirvBuilder) (bias lod : Option Nat)
    (grad : Option Nat × Option Nat)
    (constOffset varOffset constOffsets sample minLod : Option Nat) :
    SpirvBuilder × Nat :=
  let mask := ImageOperandsMaskNone
  let mask := if bias.isSome then mask ||| ImageOperandsBias else mask
  let mask := if lod.isSome then mask ||| ImageOperandsLod else mask
  let mask := if grad.fst.isSome && grad.snd.isSome then mask ||| ImageOperandsGrad else mask
  let mask := if constOffset.isSome then mask ||| ImageOperandsConstOffset else mask
  let mask := if varOffset.isSome then mask ||| ImageOperandsOffset else mask
  let s := if varOffset.isSome then requireCapability s .ImageGatherExtended else s
  let mask := if constOffsets.isSome then mask ||| ImageOperandsConstOffsets else mask
  let s := if constOffsets.isSome then requireCapability s .ImageGatherExtended else s
  let mask := if sample.isSome then mask ||| ImageOperandsSample else mask
  let s := if minLod.isSome then requireCapability s .MinLod else s
  let mask := if minLod.isSome then mask ||| ImageOperandsMinLod else mask
  (s, mask)

/-- The opcode-selection conditional of `createImageSample` (lines
346-356 of the source), as a function of the three booleans it reads:
depth-comparison present, explicit-Lod, sparse-residency requested. -/
def imageSampleOp (isDref isExplicit isSparse : Bool) : Op :=
  if isDref then
    if isExplicit then
      (if isSparse then Op.OpImageSparseSampleDrefExplicitLod
       else Op.OpImageSampleDrefExplicitLod)
    else
      (if isSparse then Op.OpImageSparseSampleDrefImplicitLod
       else Op.OpImageSampleDrefImplicitLod)
  else
    if isExplicit then
      (if isSparse then Op.OpImageSparseSampleExplicitLod
       else Op.OpImageSampleExplicitLod)
    else
      (if isSparse then Op.OpImageSparseSampleImplicitLod
       else Op.OpImageSampleImplicitLod)

/-- Embedding of `SpirvBuilder::createImageSample`: selects the opcode from
depth-comparison / explicit-Lod / sparse, asserts Lod and MinLod are not
both supplied, requires `SparseResidency` when sparse, emits the
`OpSampledImage` combinator then the sample instruction, and for sparse
calls extracts the residency status (field 0) into `residencyCode` and
returns the extracted texel (field 1). -/
def createImageSample (s : SpirvBuilder) (texelType imageType : QualType)
    (image sampler : Nat) (isNonUniform : Bool) (coordinate : Nat)
    (compareVal bias lod : Option Nat) (grad : Option Nat × Option Nat)
    (constOffset varOffset constOffsets sample minLod residencyCode : Option Nat)
    (loc : Nat) : Option (SpirvBuilder × Nat) :=
  match s.insertPoint with
  | none => none
  | some bid =>
    let isExplicit := lod.isSome || (grad.fst.isSome && grad.snd.isSome)
    let isSparse := residencyCode.isSome
    let op := imageSampleOp compareVal.isSome isExplicit isSparse
    if lod.isSome && minLod.isSome then
      none
    else
      let s := if isSparse then requireCapability s .SparseResidency else s
      let (s, sampledImageRef) := emitAt s bid (.sampledImage imageType loc image sampler)
      let sm := composeImageOperandsMask s bias lod grad constOffset varOffset
        constOffsets sample minLod
      let s := sm.1
      let mask := sm.2
      let (s, imageSampleRef) := emitAt s bid
        (.imageOp op texelType loc sampledImageRef coordinate mask compareVal
          bias lod grad.fst grad.snd constOffset varOffset constOffsets sample
          minLod none none)
      match residencyCode with
      | some rc =>
        match createCompositeExtract s QualType.unsignedInt imageSampleRef [0] 0 with
        | none => none
        | some (s, status) =>
          match createStore s rc status loc with
          | none => none
          | some s => createCompositeExtract s texelType imageSampleRef [1] 0
      | none => some (s, imageSampleRef)

/-- Embedding of `SpirvBuilder::createImageFetchOrRead`: composes the operand mask
(no bias, gradient or minimum Lod), selects between fetch and read with
their sparse variants, requires `SparseResidency` when sparse and the
externally resolved storage-image capability for reads, emits the
instruction, and for sparse calls applies the same status-extract /
store / texel-extract unwrap as sampling. -/
def createImageFetchOrRead (s : SpirvBuilder) (doImageFetch : Bool)
    (texelType imageType : QualType) (image coordinate : Nat)
    (lod constOffset varOffset constOffsets sample residencyCode : Option Nat)
    (loc : Nat) : Option (SpirvBuilder × Nat) :=
  match s.insertPoint with
  | none => none
  | some bid =>
    let sm := composeImageOperandsMask s none lod (none, none) constOffset
      varOffset constOffsets sample none
    let s := sm.1
    let mask := sm.2
    let isSparse := residencyCode.isSome
    let s := if isSparse then requireCapability s .SparseResidency else s
    let op :=
      if doImageFetch then
        (if isSparse then Op.OpImageSparseFetch else Op.OpImageFetch)
      else
        (if isSparse then Op.OpImageSparseRead else Op.OpImageRead)
    let s :=
      if !doImageFetch then
        requireCapability s (getCapabilityForStorageImageReadWrite imageType)
      else s
    let (s, fetchOrReadRef) := emitAt s bid
      (.imageOp op texelType loc image coordinate mask none none lod none none
        constOffset varOffset constOffsets sample none none none)
    match residencyCode with
    | some rc =>
      match createCompositeExtract s QualType.unsignedInt fetchOrReadRef [0] 0 with
      | none => none
      | some (s, status) =>
        match createStore s rc status loc with
        | none => none
        | some s => createCompositeExtract s texelType fetchOrReadRef [1] 0
    | none => some (s, fetchOrReadRef)

/-- Embedding of `SpirvBuilder::createImageWrite` (void result): requires the
externally resolved storage-image capability and emits an `OpImageWrite`
with an empty operand mask. -/
def createImageWrite (s : SpirvBuilder) (imageType : QualType)
    (image coord texel : Nat) (loc : Nat) : Option SpirvBuilder :=
  match s.insertPoint with
  | none => none
  | some bid =>
    let s := requireCapability s (getCapabilityForStorageImageReadWrite imageType)
    some (emitAt s bid
      (.imageOp .OpImageWrite imageType loc image coord ImageOperandsMaskNone
        none none none none none none none none none none none (some texel))).1

/-- Embedding of `SpirvBuilder::createImageGather`: requires `SparseResidency` when a
residency output is supplied, emits the `OpSampledImage` combinator,
composes a mask without bias / Lod / gradient, selects among the four
gather opcodes (depth-comparison × sparse), emits the gather, and for
sparse calls applies the status-extract / store / texel-extract unwrap
(the store with a default source location). -/
def createImageGather (s : SpirvBuilder) (texelType imageType : QualType)
    (image sampler : Nat) (isNonUniform : Bool) (coordinate component : Nat)
    (compareVal constOffset varOffset constOffsets sample residencyCode : Option Nat)
    (loc : Nat) : Option (SpirvBuilder × Nat) :=
  match s.insertPoint with
  | none => none
  | some bid =>
    let s := if residencyCode.isSome then requireCapability s .SparseResidency else s
    let (s, sampledImageRef) := emitAt s bid (.sampledImage imageType loc image sampler)
    let sm := composeImageOperandsMask s none none (none, none) constOffset
      varOffset constOffsets sample none
    let s := sm.1
    let mask := sm.2
    let op :=
      if compareVal.isSome then
        (if residencyCode.isSome then Op.OpImageSparseDrefGather
         else Op.OpImageDrefGather)
      else
        (if residencyCode.isSome then Op.OpImageSparseGather
         else Op.OpImageGather)
    let (s, imageRef) := emitAt s bid
      (.imageOp op texelType loc sampledImageRef coordinate mask compareVal
        none none none none constOffset varOffset constOffsets sample none
        (some component) none)
    match residencyCode with
    | some rc =>
      match createCompositeExtract s QualType.unsignedInt imageRef [0] 0 with
      | none => none
      | some (s, status) =>
        match createStore s rc status 0 with
        | none => none
        | some s => createCompositeExtract s texelType imageRef [1] 0
    | none => some (s, imageRef)

/-- Embedding of `SpirvBuilder::createEmitVertex`: intentionally unimplemented — the
call is accepted in every state and does nothing. -/
def createEmitVertex (s : SpirvBuilder) (loc : Nat) : SpirvBuilder :=
  s

/-- Embedding of `SpirvBuilder::createEndPrimitive`: intentionally unimplemented — the
call is accepted in every state and does nothing. -/
def createEndPrimitive (s : SpirvBuilder) (loc : Nat) : SpirvBuilder :=
  s

/-- One public builder operation together with its arguments: the alphabet
of the builder state machine (one constructor per public member function
modelled above). -/
inductive BuilderOp where
  | beginFunction (returnType : QualType) (loc : Nat) (funcName : String)
  | addFnParam (ptrType : QualType) (loc : Nat) (name : String)
  | addFnVar (valueType : QualType) (loc : Nat) (name : String) (init : Option Nat)
  | endFunction
  | createBasicBlock (name : String)
  | setInsertPoint (bid : Nat)
  | addSuccessor (successorBB : Nat)
  | setMergeTarget (mergeLabel : Nat)
  | setContinueTarget (continueLabel : Nat)
  | createCompositeConstruct (resultType : QualType) (constituents : List Nat) (loc : Nat)
  | createCompositeExtract (resultType : QualType) (composite : Nat) (indexes : List Nat) (loc : Nat)
  | createCompositeInsert (resultType : QualType) (composite : Nat) (indices : List Nat) (object : Nat) (loc : Nat)
  | createVectorShuffle (resultType : QualType) (vector1 vector2 : Nat) (selectors : List Nat) (loc : Nat)
  | createLoad (resultType : QualType) (pointer : Nat) (loc : Nat)
  | createStore (address value : Nat) (loc : Nat)
  | createFunctionCall (returnType : QualType) (func : Nat) (params : List Nat) (loc : Nat)
  | createAccessChain (resultType : QualType) (base : Nat) (indexes : List Nat) (loc : Nat)
  | createUnaryOp (op : Op) (resultType : QualType) (operand : Nat) (loc : Nat)
  | createBinaryOp (op : Op) (resultType : QualType) (lhs rhs : Nat) (loc : Nat)
  | createSpecConstantBinaryOp (op : Op) (resultType : QualType) (lhs rhs : Nat) (loc : Nat)
  | createGroupNonUniformElect (op : Op) (resultType : QualType) (execScope : Nat) (loc : Nat)
  | createGroupNonUniformUnaryOp (op : Op) (resultType : QualType) (execScope : Nat) (operand : Nat) (groupOp : Option Nat) (loc : Nat)
  | createGroupNonUniformBinaryOp (op : Op) (resultType : QualType) (execScope : Nat) (operand1 operand2 : Nat) (loc : Nat)
  | createAtomicOp (opcode : Op) (resultType : QualType) (originalValuePtr scope memorySemantics valueToOp : Nat) (loc : Nat)
  | createAtomicCompareExchange (resultType : QualType) (originalValuePtr scope equalMemorySemantics unequalMemorySemantics valueToOp comparator : Nat) (loc : Nat)
  | createImageTexelPointer (resultType : QualType) (image coordinate sample : Nat) (loc : Nat)
  | createImageSparseTexelsResident (residentCode : Nat) (loc : Nat)
  | createSelect (resultType : QualType) (condition trueValue falseValue : Nat) (loc : Nat)
  | createSwitch (mergeLabel selector defaultLabel : Nat) (target : List (Nat × Nat)) (loc : Nat)
  | createKill (loc : Nat)
  | createBranch (targetLabel : Nat) (mergeBB continueBB : Option Nat) (loopControl : Nat) (loc : Nat)
  | createConditionalBranch (condition trueLabel falseLabel : Nat) (mergeLabel continueLabel : Option Nat) (selectionControl loopControl : Nat) (loc : Nat)
  | createReturn (loc : Nat)
  | createReturnValue (value : Nat) (loc : Nat)
  | createExtInst (resultType : QualType) (set inst : Nat) (operands : List Nat) (loc : Nat)
  | createBarrier (memoryScope memorySemantics : Nat) (exec : Option Nat) (loc : Nat)
  | createBitFieldInsert (resultType : QualType) (base insertVal offset count : Nat) (loc : Nat)
  | createBitFieldExtract (resultType : QualType) (base offset count : Nat) (isSigned : Bool) (loc : Nat)
  | createImageSample (texelType imageType : QualType) (image sampler : Nat) (isNonUniform : Bool) (coordinate : Nat) (compareVal bias lod : Option Nat) (grad : Option Nat × Option Nat) (constOffset varOffset constOffsets sample minLod residencyCode : Option Nat) (loc : Nat)
  | createImageFetchOrRead (doImageFetch : Bool) (texelType imageType : QualType) (image coordinate : Nat) (lod constOffset varOffset constOffsets sample residencyCode : Option Nat) (loc : Nat)
  | createImageWrite (imageType : QualType) (image coord texel : Nat) (loc : Nat)
  | createImageGather (texelType imageType : QualType) (image sampler : Nat) (isNonUniform : Bool) (coordinate component : Nat) (compareVal constOffset varOffset constOffsets sample residencyCode : Option Nat) (loc : Nat)
  | createEmitVertex (loc : Nat)
  | createEndPrimitive (loc : Nat)

/-- Run one builder operation, discarding the returned handle: `none`
exactly when the operation trips its contract assertion. -/
def applyOp (s : SpirvBuilder) : BuilderOp → Option SpirvBuilder
  | .beginFunction returnType loc funcName => (beginFunction s returnType loc funcName).map (·.1)
  | .addFnParam ptrType loc name => (addFnParam s ptrType loc name).map (·.1)
  | .addFnVar valueType loc name init => (addFnVar s valueType loc name init).map (·.1)
  | .endFunction => endFunction s
  | .createBasicBlock name => (createBasicBlock s name).map (·.1)
  | .setInsertPoint bid => setInsertPoint s bid
  | .addSuccessor successorBB => addSuccessor s successorBB
  | .setMergeTarget mergeLabel => setMergeTarget s mergeLabel
  | .setContinueTarget continueLabel => setContinueTarget s continueLabel
  | .createCompositeConstruct resultType constituents loc => (createCompositeConstruct s resultType constituents loc).map (·.1)
  | .createCompositeExtract resultType composite indexes loc => (createCompositeExtract s resultType composite indexes loc).map (·.1)
  | .createCompositeInsert resultType composite indices object loc => (createCompositeInsert s resultType composite indices object loc).map (·.1)
  | .createVectorShuffle resultType vector1 vector2 selectors loc => (createVectorShuffle s resultType vector1 vector2 selectors loc).map (·.1)
  | .createLoad resultType pointer loc => (createLoad s resultType pointer loc).map (·.1)
  | .createStore address value loc => createStore s address value loc
  | .createFunctionCall returnType func params loc => (createFunctionCall s returnType func params loc).map (·.1)
  | .createAccessChain resultType base indexes loc => (createAccessChain s resultType base indexes loc).map (·.1)
  | .createUnaryOp op resultType operand loc => (createUnaryOp s op resultType operand loc).map (·.1)
  | .createBinaryOp op resultType lhs rhs loc => (createBinaryOp s op resultType lhs rhs loc).map (·.1)
  | .createSpecConstantBinaryOp op resultType lhs rhs loc => (createSpecConstantBinaryOp s op resultType lhs rhs loc).map (·.1)
  | .createGroupNonUniformElect op resultType execScope loc => (createGroupNonUniformElect s op resultType execScope loc).map (·.1)
  | .createGroupNonUniformUnaryOp op resultType execScope operand groupOp loc => (createGroupNonUniformUnaryOp s op resultType execScope operand groupOp loc).map (·.1)
  | .createGroupNonUniformBinaryOp op resultType execScope operand1 operand2 loc => (createGroupNonUniformBinaryOp s op resultType execScope operand1 operand2 loc).map (·.1)
  | .createAtomicOp opcode resultType originalValuePtr scope memorySemantics valueToOp loc => (createAtomicOp s opcode resultType originalValuePtr scope memorySemantics valueToOp loc).map (·.1)
  | .createAtomicCompareExchange resultType originalValuePtr scope eqSem neqSem valueToOp comparator loc => (createAtomicCompareExchange s resultType originalValuePtr scope eqSem neqSem valueToOp comparator loc).map (·.1)
  | .createImageTexelPointer resultType image coordinate sample loc => (createImageTexelPointer s resultType image coordinate sample loc).map (·.1)
  | .createImageSparseTexelsResident residentCode loc => (createImageSparseTexelsResident s residentCode loc).map (·.1)
  | .createSelect resultType condition trueValue falseValue loc => (createSelect s resultType condition trueValue falseValue loc).map (·.1)
  | .createSwitch mergeLabel selector defaultLabel target loc => createSwitch s mergeLabel selector defaultLabel target loc
  | .createKill loc => createKill s loc
  | .createBranch targetLabel mergeBB continueBB loopControl loc => createBranch s targetLabel mergeBB continueBB loopControl loc
  | .createConditionalBranch condition trueLabel falseLabel mergeLabel continueLabel selectionControl loopControl loc => createConditionalBranch s condition trueLabel falseLabel mergeLabel continueLabel selectionControl loopControl loc
  | .createReturn loc => createReturn s loc
  | .createReturnValue value loc => createReturnValue s value loc
  | .createExtInst resultType set inst operands loc => (createExtInst s resultType set inst operands loc).map (·.1)
  | .createBarrier memoryScope memorySemantics exec loc => createBarrier s memoryScope memorySemantics exec loc
  | .createBitFieldInsert resultType base insertVal offset count loc => (createBitFieldInsert s resultType base insertVal offset count loc).map (·.1)
  | .createBitFieldExtract resultType base offset count isSigned loc => (createBitFieldExtract s resultType base offset count isSigned loc).map (·.1)
  | .createImageSample texelType imageType image sampler isNonUniform coordinate compareVal bias lod grad constOffset varOffset constOffsets sample minLod residencyCode loc => (createImageSample s texelType imageType image sampler isNonUniform coordinate compareVal bias lod grad constOffset varOffset constOffsets sample minLod residencyCode loc).map (·.1)
  | .createImageFetchOrRead doImageFetch texelType imageType image coordinate lod constOffset varOffset constOffsets sample residencyCode loc => (createImageFetchOrRead s doImageFetch texelType imageType image coordinate lod constOffset varOffset constOffsets sample residencyCode loc).map (·.1)
  | .createImageWrite imageType image coord texel loc => createImageWrite s imageType image coord texel loc
  | .createImageGather texelType imageType image sampler isNonUniform coordinate component compareVal constOffset varOffset constOffsets sample residencyCode loc => (createImageGather s texelType imageType image sampler isNonUniform coordinate component compareVal constOffset varOffset constOffsets sample residencyCode loc).map (·.1)
  | .createEmitVertex loc => some (createEmitVertex s loc)
  | .createEndPrimitive loc => some (createEndPrimitive s loc)

/-- Run a sequence of builder operations; `none` as soon as any
operation trips its contract assertion. -/
def applyOps (s : SpirvBuilder) : List BuilderOp → Option SpirvBuilder
  | [] => some s
  | op :: ops =>
    match applyOp s op with
    | none => none
    | some s => applyOps s ops

/-- A builder state is reachable when some operation sequence that
respects every contract precondition produces it from the freshly
constructed builder. -/
def Reachable (s : SpirvBuilder) : Prop :=
  ∃ ops : List BuilderOp, applyOps SpirvBuilder.init ops = some s

/-! ### Basic lemmas about the state helpers -/

@[simp]
theorem requireCapability_function (s : SpirvBuilder) (cap : Capability) :
    (requireCapability s cap).function = s.function := rfl

@[simp]
theorem requireCapability_basicBlocks (s : SpirvBuilder) (cap : Capability) :
    (requireCapability s cap).basicBlocks = s.basicBlocks := rfl

@[simp]
theorem requireCapability_insertPoint (s : SpirvBuilder) (cap : Capability) :
    (requireCapability s cap).insertPoint = s.insertPoint := rfl

@[simp]
theorem requireCapability_nextId (s : SpirvBuilder) (cap : Capability) :
    (requireCapability s cap).nextId = s.nextId := rfl

@[simp]
theorem requireCapability_module_functions (s : SpirvBuilder) (cap : Capability) :
    (requireCapability s cap).module.functions = s.module.functions := rfl

theorem mem_requireCapability (s : SpirvBuilder) (cap c : Capability) :
    c ∈ (requireCapability s cap).module.capabilities ↔
      c ∈ s.module.capabilities ∨ c = cap := by
  by_cases h : cap ∈ s.module.capabilities
  · simp only [requireCapability, h, if_pos]
    constructor
    · exact Or.inl
    · rintro (hc | rfl)
      · exact hc
      · exact h
  · simp [requireCapability, h]

@[simp]
theorem emitAt_fst_function (s : SpirvBuilder) (bid : Nat) (i : Instr) :
    (emitAt s bid i).1.function = s.function := rfl

@[simp]
theorem emitAt_fst_insertPoint (s : SpirvBuilder) (bid : Nat) (i : Instr) :
    (emitAt s bid i).1.insertPoint = s.insertPoint := rfl

@[simp]
theorem emitAt_fst_nextId (s : SpirvBuilder) (bid : Nat) (i : Instr) :
    (emitAt s bid i).1.nextId = s.nextId + 1 := rfl

@[simp]
theorem emitAt_fst_module (s : SpirvBuilder) (bid : Nat) (i : Instr) :
    (emitAt s bid i).1.module = s.module := rfl

@[simp]
theorem emitAt_fst_basicBlocks (s : SpirvBuilder) (bid : Nat) (i : Instr) :
    (emitAt s bid i).1.basicBlocks = addToBlock s.basicBlocks bid ⟨s.nextId, i⟩ := rfl

@[simp]
theorem emitAt_snd (s : SpirvBuilder) (bid : Nat) (i : Instr) :
    (emitAt s bid i).2 = s.nextId := rfl

@[simp]
theorem getBlock_addToBlock (bs : List SpirvBasicBlock) (bid : Nat) (n : Node) :
    getBlock (addToBlock bs bid n) bid =
      (getBlock bs bid).map
        (fun b => { b with instructions := b.instructions ++ [n] }) := by
  induction bs with
  | nil => rfl
  | cons b bs ih =>
    simp only [getBlock, addToBlock, mapBlock, List.map_cons] at *
    rw [List.find?_cons, List.find?_cons]
    by_cases h : b.id = bid
    · simp [h]
    · have hb : (b.id == bid) = false := by simp [h]
      simp only [hb, if_neg, Bool.false_eq_true, not_false_iff, ite_false]
      exact ih

@[simp]
theorem getBlock_nil (bid : Nat) : getBlock [] bid = none := rfl

theorem addToBlock_nil (bid : Nat) (n : Node) : addToBlock [] bid n = [] := rfl

/-- Distributing a conditional mask-bit accumulation step. -/
theorem ite_lor_split (c : Prop) [Decidable c] (m b : Nat) :
    (if c then m ||| b else m) = m ||| (if c then b else 0) := by
  split <;> simp

theorem composeImageOperandsMask_snd (s : SpirvBuilder) (bias lod : Option Nat)
    (grad : Option Nat × Option Nat)
    (constOffset varOffset constOffsets sample minLod : Option Nat) :
    (composeImageOperandsMask s bias lod grad constOffset varOffset constOffsets
        sample minLod).2 =
      (if bias.isSome then ImageOperandsBias else 0) |||
      (if lod.isSome then ImageOperandsLod else 0) |||
      (if grad.fst.isSome && grad.snd.isSome then ImageOperandsGrad else 0) |||
      (if constOffset.isSome then ImageOperandsConstOffset else 0) |||
      (if varOffset.isSome then ImageOperandsOffset else 0) |||
      (if constOffsets.isSome then ImageOperandsConstOffsets else 0) |||
      (if sample.isSome then ImageOperandsSample else 0) |||
      (if minLod.isSome then ImageOperandsMinLod else 0) := by
  simp only [composeImageOperandsMask, ite_lor_split, ImageOperandsMaskNone,
    Nat.zero_or]

@[simp]
theorem composeImageOperandsMask_fst_insertPoint (s : SpirvBuilder)
    (bias lod : Option Nat) (grad : Option Nat × Option Nat)
    (constOffset varOffset constOffsets sample minLod : Option Nat) :
    (composeImageOperandsMask s bias lod grad constOffset varOffset constOffsets
        sample minLod).1.insertPoint = s.insertPoint := by
  cases hv : varOffset.isSome <;> cases hc : constOffsets.isSome <;>
    cases hm : minLod.isSome <;>
    simp [composeImageOperandsMask, hv, hc, hm]

@[simp]
theorem composeImageOperandsMask_fst_function (s : SpirvBuilder)
    (bias lod : Option Nat) (grad : Option Nat × Option Nat)
    (constOffset varOffset constOffsets sample minLod : Option Nat) :
    (composeImageOperandsMask s bias lod grad constOffset varOffset constOffsets
        sample minLod).1.function = s.function := by
  cases hv : varOffset.isSome <;> cases hc : constOffsets.isSome <;>
    cases hm : minLod.isSome <;>
    simp [composeImageOperandsMask, hv, hc, hm]

@[simp]
theorem composeImageOperandsMask_fst_basicBlocks (s : SpirvBuilder)
    (bias lod : Option Nat) (grad : Option Nat × Option Nat)
    (constOffset varOffset constOffsets sample minLod : Option Nat) :
    (composeImageOperandsMask s bias lod grad constOffset varOffset constOffsets
        sample minLod).1.basicBlocks = s.basicBlocks := by
  cases hv : varOffset.isSome <;> cases hc : constOffsets.isSome <;>
    cases hm : minLod.isSome <;>
    simp [composeImageOperandsMask, hv, hc, hm]

@[simp]
theorem composeImageOperandsMask_fst_nextId (s : SpirvBuilder)
    (bias lod : Option Nat) (grad : Option Nat × Option Nat)
    (constOffset varOffset constOffsets sample minLod : Option Nat) :
    (composeImageOperandsMask s bias lod grad constOffset varOffset constOffsets
        sample minLod).1.nextId = s.nextId := by
  cases hv : varOffset.isSome <;> cases hc : constOffsets.isSome <;>
    cases hm : minLod.isSome <;>
    simp [composeImageOperandsMask, hv, hc, hm]

@[simp]
theorem composeImageOperandsMask_fst_module_functions (s : SpirvBuilder)
    (bias lod : Option Nat) (grad : Option Nat × Option Nat)
    (constOffset varOffset constOffsets sample minLod : Option Nat) :
    (composeImageOperandsMask s bias lod grad constOffset varOffset constOffsets
        sample minLod).1.module.functions = s.module.functions := by
  cases hv : varOffset.isSome <;> cases hc : constOffsets.isSome <;>
    cases hm : minLod.isSome <;>
    simp [composeImageOperandsMask, hv, hc, hm]

theorem composeImageOperandsMask_capabilities (s : SpirvBuilder)
    (bias lod : Option Nat) (grad : Option Nat × Option Nat)
    (constOffset varOffset constOffsets sample minLod : Option Nat)
    (c : Capability) :
    c ∈ (composeImageOperandsMask s bias lod grad constOffset varOffset
          constOffsets sample minLod).1.module.capabilities ↔
      c ∈ s.module.capabilities ∨
      ((varOffset.isSome = true ∨ constOffsets.isSome = true) ∧
        c = Capability.ImageGatherExtended) ∨
      (minLod.isSome = true ∧ c = Capability.MinLod) := by
  cases hv : varOffset.isSome <;> cases hc : constOffsets.isSome <;>
    cases hm : minLod.isSome <;>
    simp [composeImageOperandsMask, hv, hc, hm, mem_requireCapability] <;>
    tauto

/-! ### Characterization of the image sampling constructors -/

theorem createImageSample_sparse_eq (s : SpirvBuilder) (bid : Nat)
    (texelType imageType : QualType) (image sampler : Nat)
    (isNonUniform : Bool) (coordinate : Nat) (compareVal bias lod : Option Nat)
    (grad : Option Nat × Option Nat)
    (constOffset varOffset constOffsets sample minLod : Option Nat)
    (rc loc : Nat) (hip : s.insertPoint = some bid)
    (hpre : (lod.isSome && minLod.isSome) = false) :
    ∃ s' r, createImageSample s texelType imageType image sampler isNonUniform
        coordinate compareVal bias lod grad constOffset varOffset constOffsets
        sample minLod (some rc) loc = some (s', r) ∧
      r = s.nextId + 4 ∧
      s'.insertPoint = s.insertPoint ∧ s'.function = s.function ∧
      s'.nextId = s.nextId + 5 ∧ s'.module.functions = s.module.functions ∧
      Capability.SparseResidency ∈ s'.module.capabilities ∧
      (∀ b, getBlock s.basicBlocks bid = some b →
        getBlock s'.basicBlocks bid = some
          { b with instructions := b.instructions ++
              [⟨s.nextId, .sampledImage imageType loc image sampler⟩,
               ⟨s.nextId + 1, .imageOp
                  (imageSampleOp compareVal.isSome
                    (lod.isSome || (grad.fst.isSome && grad.snd.isSome)) true)
                  texelType loc s.nextId coordinate
                  (composeImageOperandsMask s bias lod grad constOffset
                    varOffset constOffsets sample minLod).2
                  compareVal bias lod grad.fst grad.snd constOffset varOffset
                  constOffsets sample minLod none none⟩,
               ⟨s.nextId + 2, .compositeExtract QualType.unsignedInt 0 (s.nextId + 1) [0]⟩,
               ⟨s.nextId + 3, .store loc rc (s.nextId + 2)⟩,
               ⟨s.nextId + 4, .compositeExtract texelType 0 (s.nextId + 1) [1]⟩] }) := by
  simp only [createImageSample, hip, hpre, Option.isSome_some, if_true,
    Bool.false_eq_true, ite_false, createCompositeExtract, createStore,
    emitAt_fst_insertPoint, composeImageOperandsMask_fst_insertPoint,
    requireCapability_insertPoint]
  refine ⟨_, _, rfl, ?_, ?_, ?_, ?_, ?_, ?_, ?_⟩
  · simp [hip]
  · simp [hip]
  · simp [hip]
  · simp [hip]
  · simp [hip]
  · simp only [emitAt_fst_module]
    rw [composeImageOperandsMask_capabilities]
    left
    rw [emitAt_fst_module, mem_requireCapability]
    tauto
  · intro b hb
    simp only [composeImageOperandsMask_snd]
    simp [hip, getBlock_addToBlock, hb]

theorem createImageSample_nonsparse_eq (s : SpirvBuilder) (bid : Nat)
    (texelType imageType : QualType) (image sampler : Nat)
    (isNonUniform : Bool) (coordinate : Nat) (compareVal bias lod : Option Nat)
    (grad : Option Nat × Option Nat)
    (constOffset varOffset constOffsets sample minLod : Option Nat)
    (loc : Nat) (hip : s.insertPoint = some bid)
    (hpre : (lod.isSome && minLod.isSome) = false) :
    ∃ s' r, createImageSample s texelType imageType image sampler isNonUniform
        coordinate compareVal bias lod grad constOffset varOffset constOffsets
        sample minLod none loc = some (s', r) ∧
      r = s.nextId + 1 ∧
      s'.insertPoint = s.insertPoint ∧ s'.function = s.function ∧
      s'.nextId = s.nextId + 2 ∧ s'.module.functions = s.module.functions ∧
      (∀ c, c ∈ s'.module.capabilities ↔
        c ∈ s.module.capabilities ∨
        ((varOffset.isSome = true ∨ constOffsets.isSome = true) ∧
          c = Capability.ImageGatherExtended) ∨
        (minLod.isSome = true ∧ c = Capability.MinLod)) ∧
      (∀ b, getBlock s.basicBlocks bid = some b →
        getBlock s'.basicBlocks bid = some
          { b with instructions := b.instructions ++
              [⟨s.nextId, .sampledImage imageType loc image sampler⟩,
               ⟨s.nextId + 1, .imageOp
                  (imageSampleOp compareVal.isSome
                    (lod.isSome || (grad.fst.isSome && grad.snd.isSome)) false)
                  texelType loc s.nextId coordinate
                  (composeImageOperandsMask s bias lod grad constOffset
                    varOffset constOffsets sample minLod).2
                  compareVal bias lod grad.fst grad.snd constOffset varOffset
                  constOffsets sample minLod none none⟩] }) := by
  simp only [createImageSample, hip, hpre, Option.isSome_none, Option.isSome_some,
    Bool.false_eq_true, ite_false, if_false,
    emitAt_fst_insertPoint, composeImageOperandsMask_fst_insertPoint]
  refine ⟨_, _, rfl, ?_, ?_, ?_, ?_, ?_, ?_, ?_⟩
  · simp [hip]
  · simp [hip]
  · simp [hip]
  · simp [hip]
  · simp [hip]
  · intro c
    simp only [emitAt_fst_module]
    rw [composeImageOperandsMask_capabilities, emitAt_fst_module]
  · intro b hb
    simp only [composeImageOperandsMask_snd]
    simp [getBlock_addToBlock, hb]

theorem createImageFetchOrRead_sparse_eq (s : SpirvBuilder) (bid : Nat)
    (doImageFetch : Bool) (texelType imageType : QualType)
    (image coordinate : Nat)
    (lod constOffset varOffset constOffsets sample : Option Nat)
    (rc loc : Nat) (hip : s.insertPoint = some bid) :
    ∃ s' r, createImageFetchOrRead s doImageFetch texelType imageType image
        coordinate lod constOffset varOffset constOffsets sample (some rc)
        loc = some (s', r) ∧
      r = s.nextId + 3 ∧
      s'.insertPoint = s.insertPoint ∧ s'.function = s.function ∧
      s'.nextId = s.nextId + 4 ∧ s'.module.functions = s.module.functions ∧
      Capability.SparseResidency ∈ s'.module.capabilities ∧
      (∀ b, getBlock s.basicBlocks bid = some b →
        getBlock s'.basicBlocks bid = some
          { b with instructions := b.instructions ++
              [⟨s.nextId, .imageOp
                  (if doImageFetch then Op.OpImageSparseFetch
                   else Op.OpImageSparseRead)
                  texelType loc image coordinate
                  (composeImageOperandsMask s none lod (none, none) constOffset
                    varOffset constOffsets sample none).2
                  none none lod none none constOffset varOffset constOffsets
                  sample none none none⟩,
               ⟨s.nextId + 1, .compositeExtract QualType.unsignedInt 0 s.nextId [0]⟩,
               ⟨s.nextId + 2, .store loc rc (s.nextId + 1)⟩,
               ⟨s.nextId + 3, .compositeExtract texelType 0 s.nextId [1]⟩] }) := by
  cases doImageFetch <;>
  · simp only [createImageFetchOrRead, hip, Option.isSome_some, if_true, ite_true,
      Bool.not_true, Bool.not_false, Bool.false_eq_true, ite_false, if_false,
      createCompositeExtract, createStore, emitAt_fst_insertPoint,
      composeImageOperandsMask_fst_insertPoint, requireCapability_insertPoint]
    refine ⟨_, _, rfl, ?_, ?_, ?_, ?_, ?_, ?_, ?_⟩
    · simp [hip]
    · simp [hip]
    · simp [hip]
    · simp [hip]
    · simp [hip]
    · simp only [emitAt_fst_module, requireCapability_module_functions]
      simp [mem_requireCapability, composeImageOperandsMask_capabilities]
    · intro b hb
      simp only [composeImageOperandsMask_snd]
      simp [hip, getBlock_addToBlock, hb]

theorem createImageFetchOrRead_nonsparse_eq (s : SpirvBuilder) (bid : Nat)
    (doImageFetch : Bool) (texelType imageType : QualType)
    (image coordinate : Nat)
    (lod constOffset varOffset constOffsets sample : Option Nat)
    (loc : Nat) (hip : s.insertPoint = some bid) :
    ∃ s' r, createImageFetchOrRead s doImageFetch texelType imageType image
        coordinate lod constOffset varOffset constOffsets sample none
        loc = some (s', r) ∧
      r = s.nextId ∧
      s'.insertPoint = s.insertPoint ∧ s'.function = s.function ∧
      s'.nextId = s.nextId + 1 ∧ s'.module.functions = s.module.functions ∧
      (∀ b, getBlock s.basicBlocks bid = some b →
        getBlock s'.basicBlocks bid = some
          { b with instructions := b.instructions ++
              [⟨s.nextId, .imageOp
                  (if doImageFetch then Op.OpImageFetch else Op.OpImageRead)
                  texelType loc image coordinate
                  (composeImageOperandsMask s none lod (none, none) constOffset
                    varOffset constOffsets sample none).2
                  none none lod none none constOffset varOffset constOffsets
                  sample none none none⟩] }) := by
  cases doImageFetch <;>
  · simp only [createImageFetchOrRead, hip, Option.isSome_none, if_true, ite_true,
      Bool.not_true, Bool.not_false, Bool.false_eq_true, ite_false, if_false,
      emitAt_fst_insertPoint, composeImageOperandsMask_fst_insertPoint,
      requireCapability_insertPoint]
    refine ⟨_, _, rfl, ?_, ?_, ?_, ?_, ?_, ?_⟩
    · simp [hip]
    · simp [hip]
    · simp [hip]
    · simp [hip]
    · simp [hip]
    · intro b hb
      simp only [composeImageOperandsMask_snd]
      simp [getBlock_addToBlock, hb]

theorem createImageGather_sparse_eq (s : SpirvBuilder) (bid : Nat)
    (texelType imageType : QualType) (image sampler : Nat)
    (isNonUniform : Bool) (coordinate component : Nat)
    (compareVal constOffset varOffset constOffsets sample : Option Nat)
    (rc loc : Nat) (hip : s.insertPoint = some bid) :
    ∃ s' r, createImageGather s texelType imageType image sampler isNonUniform
        coordinate component compareVal constOffset varOffset constOffsets
        sample (some rc) loc = some (s', r) ∧
      r = s.nextId + 4 ∧
      s'.insertPoint = s.insertPoint ∧ s'.function = s.function ∧
      s'.nextId = s.nextId + 5 ∧ s'.module.functions = s.module.functions ∧
      Capability.SparseResidency ∈ s'.module.capabilities ∧
      (∀ b, getBlock s.basicBlocks bid = some b →
        getBlock s'.basicBlocks bid = some
          { b with instructions := b.instructions ++
              [⟨s.nextId, .sampledImage imageType loc image sampler⟩,
               ⟨s.nextId + 1, .imageOp
                  (if compareVal.isSome then Op.OpImageSparseDrefGather
                   else Op.OpImageSparseGather)
                  texelType loc s.nextId coordinate
                  (composeImageOperandsMask s none none (none, none) constOffset
                    varOffset constOffsets sample none).2
                  compareVal none none none none constOffset varOffset
                  constOffsets sample none (some component) none⟩,
               ⟨s.nextId + 2, .compositeExtract QualType.unsignedInt 0 (s.nextId + 1) [0]⟩,
               ⟨s.nextId + 3, .store 0 rc (s.nextId + 2)⟩,
               ⟨s.nextId + 4, .compositeExtract texelType 0 (s.nextId + 1) [1]⟩] }) := by
  simp only [createImageGather, hip, Option.isSome_some, if_true, ite_true,
    createCompositeExtract, createStore, emitAt_fst_insertPoint,
    composeImageOperandsMask_fst_insertPoint, requireCapability_insertPoint]
  refine ⟨_, _, rfl, ?_, ?_, ?_, ?_, ?_, ?_, ?_⟩
  · simp [hip]
  · simp [hip]
  · simp [hip]
  · simp [hip]
  · simp [hip]
  · simp only [emitAt_fst_module]
    rw [composeImageOperandsMask_capabilities]
    left
    rw [emitAt_fst_module, mem_requireCapability]
    tauto
  · intro b hb
    simp only [composeImageOperandsMask_snd]
    simp [hip, getBlock_addToBlock, hb]

theorem createImageGather_nonsparse_eq (s : SpirvBuilder) (bid : Nat)
    (texelType imageType : QualType) (image sampler : Nat)
    (isNonUniform : Bool) (coordinate component : Nat)
    (compareVal constOffset varOffset constOffsets sample : Option Nat)
    (loc : Nat) (hip : s.insertPoint = some bid) :
    ∃ s' r, createImageGather s texelType imageType image sampler isNonUniform
        coordinate component compareVal constOffset varOffset constOffsets
        sample none loc = some (s', r) ∧
      r = s.nextId + 1 ∧
      s'.insertPoint = s.insertPoint ∧ s'.function = s.function ∧
      s'.nextId = s.nextId + 2 ∧ s'.module.functions = s.module.functions ∧
      (∀ b, getBlock s.basicBlocks bid = some b →
        getBlock s'.basicBlocks bid = some
          { b with instructions := b.instructions ++
              [⟨s.nextId, .sampledImage imageType loc image sampler⟩,
               ⟨s.nextId + 1, .imageOp
                  (if compareVal.isSome then Op.OpImageDrefGather
                   else Op.OpImageGather)
                  texelType loc s.nextId coordinate
                  (composeImageOperandsMask s none none (none, none) constOffset
                    varOffset constOffsets sample none).2
                  compareVal none none none none constOffset varOffset
                  constOffsets sample none (some component) none⟩] }) := by
  simp only [createImageGather, hip, Option.isSome_none, Bool.false_eq_true,
    ite_false, if_false, emitAt_fst_insertPoint,
    composeImageOperandsMask_fst_insertPoint]
  refine ⟨_, _, rfl, ?_, ?_, ?_, ?_, ?_, ?_⟩
  · simp [hip]
  · simp [hip]
  · simp [hip]
  · simp [hip]
  · simp [hip]
  · intro b hb
    simp only [composeImageOperandsMask_snd]
    simp [getBlock_addToBlock, hb]

/-! ### Claim theorems -/

/-- C2: image-operand-mask composition is a deterministic function of the
eight presence flags: the returned mask is exactly the union of the
corresponding bits in the fixed order Bias, Lod, Grad, ConstOffset,
Offset, ConstOffsets, Sample, MinLod (the Grad bit only when both
gradient components are present); its only side effect is adding the
`ImageGatherExtended` capability when a variable offset or a
constant-offsets list is present and the `MinLod` capability when a
minimum level-of-detail is present — every other state component is
unchanged. -/
theorem composeImageOperandsMask_spec (s : SpirvBuilder) (bias lod : Option Nat)
    (grad : Option Nat × Option Nat)
    (constOffset varOffset constOffsets sample minLod : Option Nat) :
    (composeImageOperandsMask s bias lod grad constOffset varOffset constOffsets
        sample minLod).2 =
      ((if bias.isSome then ImageOperandsBias else 0) |||
       (if lod.isSome then ImageOperandsLod else 0) |||
       (if grad.fst.isSome && grad.snd.isSome then ImageOperandsGrad else 0) |||
       (if constOffset.isSome then ImageOperandsConstOffset else 0) |||
       (if varOffset.isSome then ImageOperandsOffset else 0) |||
       (if constOffsets.isSome then ImageOperandsConstOffsets else 0) |||
       (if sample.isSome then ImageOperandsSample else 0) |||
       (if minLod.isSome then ImageOperandsMinLod else 0)) ∧
    (composeImageOperandsMask s bias lod grad constOffset varOffset constOffsets
        sample minLod).1.function = s.function ∧
    (composeImageOperandsMask s bias lod grad constOffset varOffset constOffsets
        sample minLod).1.basicBlocks = s.basicBlocks ∧
    (composeImageOperandsMask s bias lod grad constOffset varOffset constOffsets
        sample minLod).1.insertPoint = s.insertPoint ∧
    (composeImageOperandsMask s bias lod grad constOffset varOffset constOffsets
        sample minLod).1.nextId = s.nextId ∧
    (composeImageOperandsMask s bias lod grad constOffset varOffset constOffsets
        sample minLod).1.module.functions = s.module.functions ∧
    (∀ c, c ∈ (composeImageOperandsMask s bias lod grad constOffset varOffset
          constOffsets sample minLod).1.module.capabilities ↔
        c ∈ s.module.capabilities ∨
        ((varOffset.isSome = true ∨ constOffsets.isSome = true) ∧
          c = Capability.ImageGatherExtended) ∨
        (minLod.isSome = true ∧ c = Capability.MinLod)) :=
  ⟨composeImageOperandsMask_snd s bias lod grad constOffset varOffset
      constOffsets sample minLod,
   composeImageOperandsMask_fst_function s bias lod grad constOffset varOffset
      constOffsets sample minLod,
   composeImageOperandsMask_fst_basicBlocks s bias lod grad constOffset
      varOffset constOffsets sample minLod,
   composeImageOperandsMask_fst_insertPoint s bias lod grad constOffset
      varOffset constOffsets sample minLod,
   composeImageOperandsMask_fst_nextId s bias lod grad constOffset varOffset
      constOffsets sample minLod,
   composeImageOperandsMask_fst_module_functions s bias lod grad constOffset
      varOffset constOffsets sample minLod,
   composeImageOperandsMask_capabilities s bias lod grad constOffset varOffset
      constOffsets sample minLod⟩

/-- C9: `createEmitVertex` and `createEndPrimitive` are accepted in every
builder state — including Idle — emit no instruction, and leave the
entire builder state unchanged. -/
theorem emitVertex_endPrimitive_noop (s : SpirvBuilder) (loc : Nat) :
    createEmitVertex s loc = s ∧ createEndPrimitive s loc = s :=
  ⟨rfl, rfl⟩

/-- C5: with the cursor positioned, `createBranch` emits a loop-merge
marker (referencing the merge block, the continue block and the
loop-control flags) immediately followed by the unconditional branch to
the target exactly when both the merge block and the continue block are
supplied; otherwise — including a merge block alone — it appends only the
branch. -/
theorem createBranch_markers (s : SpirvBuilder) (bid targetLabel : Nat)
    (mergeBB continueBB : Option Nat) (loopControl loc : Nat)
    (b : SpirvBasicBlock) (hip : s.insertPoint = some bid)
    (hb : getBlock s.basicBlocks bid = some b) :
    ∃ s', createBranch s targetLabel mergeBB continueBB loopControl loc = some s' ∧
      getBlock s'.basicBlocks bid = some
        { b with instructions := b.instructions ++
            (match mergeBB, continueBB with
             | some m, some c =>
                 [⟨s.nextId, .loopMerge loc m c loopControl⟩,
                  ⟨s.nextId + 1, .branch loc targetLabel⟩]
             | _, _ => [⟨s.nextId, .branch loc targetLabel⟩]) } := by
  cases mergeBB with
  | none =>
    cases continueBB <;>
    · simp only [createBranch, hip]
      exact ⟨_, rfl, by simp [getBlock_addToBlock, hb]⟩
  | some m =>
    cases continueBB with
    | none =>
      simp only [createBranch, hip]
      exact ⟨_, rfl, by simp [getBlock_addToBlock, hb]⟩
    | some c =>
      simp only [createBranch, hip]
      exact ⟨_, rfl, by simp [getBlock_addToBlock, hb]⟩

/-- C4: with the cursor positioned, `createConditionalBranch` emits
exactly one loop-merge marker (merge label, continue label, loop-control
flags) before the conditional branch when both labels are supplied,
exactly one selection-merge marker (merge label, selection control) when
only the merge label is supplied, and no marker when the merge label is
absent; the two marker kinds are never both emitted and the conditional
branch referencing the true and false labels is always appended last. -/
theorem createConditionalBranch_markers (s : SpirvBuilder)
    (bid condition trueLabel falseLabel : Nat)
    (mergeLabel continueLabel : Option Nat) (selectionControl loopControl loc : Nat)
    (b : SpirvBasicBlock) (hip : s.insertPoint = some bid)
    (hb : getBlock s.basicBlocks bid = some b) :
    ∃ s', createConditionalBranch s condition trueLabel falseLabel mergeLabel
        continueLabel selectionControl loopControl loc = some s' ∧
      getBlock s'.basicBlocks bid = some
        { b with instructions := b.instructions ++
            (match mergeLabel, continueLabel with
             | some m, some c =>
                 [⟨s.nextId, .loopMerge loc m c loopControl⟩,
                  ⟨s.nextId + 1, .branchConditional loc condition trueLabel falseLabel⟩]
             | some m, none =>
                 [⟨s.nextId, .selectionMerge loc m selectionControl⟩,
                  ⟨s.nextId + 1, .branchConditional loc condition trueLabel falseLabel⟩]
             | none, _ =>
                 [⟨s.nextId, .branchConditional loc condition trueLabel falseLabel⟩]) } := by
  cases mergeLabel with
  | none =>
    cases continueLabel <;>
    · simp only [createConditionalBranch, hip]
      exact ⟨_, rfl, by simp [getBlock_addToBlock, hb]⟩
  | some m =>
    cases continueLabel with
    | none =>
      simp only [createConditionalBranch, hip]
      exact ⟨_, rfl, by simp [getBlock_addToBlock, hb]⟩
    | some c =>
      simp only [createConditionalBranch, hip]
      exact ⟨_, rfl, by simp [getBlock_addToBlock, hb]⟩

/-- C7: from FunctionOpen, `endFunction` attaches every pending basic
block to the active function in creation order, empties the pending
list, appends the function to the module's function sequence, resets the
active function and the cursor to unset (returning the builder to Idle);
from Idle it fails fatally. -/
theorem endFunction_spec (s : SpirvBuilder) :
    (∀ f, s.function = some f →
      endFunction s = some
        { module :=
            { functions :=
                s.module.functions ++ [{ f with basicBlocks := f.basicBlocks ++ s.basicBlocks }]
              capabilities := s.module.capabilities }
          function := none
          basicBlocks := []
          insertPoint := none
          nextId := s.nextId }) ∧
    (s.function = none → endFunction s = none) := by
  constructor
  · intro f hf
    simp [endFunction, hf]
  · intro hf
    simp [endFunction, hf]

/-- The documented eight-variant opcode table for image sampling:
Dref/non-Dref × Explicit/Implicit × Sparse/non-sparse. -/
def imageSampleOpcodeTable (isDref isExplicit isSparse : Bool) : Op :=
  match isDref, isExplicit, isSparse with
  | false, false, false => .OpImageSampleImplicitLod
  | false, false, true  => .OpImageSparseSampleImplicitLod
  | false, true,  false => .OpImageSampleExplicitLod
  | false, true,  true  => .OpImageSparseSampleExplicitLod
  | true,  false, false => .OpImageSampleDrefImplicitLod
  | true,  false, true  => .OpImageSparseSampleDrefImplicitLod
  | true,  true,  false => .OpImageSampleDrefExplicitLod
  | true,  true,  true  => .OpImageSparseSampleDrefExplicitLod

theorem imageSampleOp_eq_table (d e sp : Bool) :
    imageSampleOp d e sp = imageSampleOpcodeTable d e sp := by
  cases d <;> cases e <;> cases sp <;> rfl

/-- C1: with the cursor positioned and Lod / MinLod not both supplied,
the opcode of the sample instruction emitted by `createImageSample` is
determined by exactly three booleans — depth-comparison value present,
explicit-Lod present (a Lod operand or both gradient components), and
sparse residency requested (a residency-output location supplied) —
following the documented eight-variant table. -/
theorem createImageSample_opcode_of_table (s : SpirvBuilder) (bid : Nat)
    (texelType imageType : QualType) (image sampler : Nat)
    (isNonUniform : Bool) (coordinate : Nat) (compareVal bias lod : Option Nat)
    (grad : Option Nat × Option Nat)
    (constOffset varOffset constOffsets sample minLod residencyCode : Option Nat)
    (loc : Nat) (b : SpirvBasicBlock) (hip : s.insertPoint = some bid)
    (hb : getBlock s.basicBlocks bid = some b)
    (hpre : ¬(lod.isSome = true ∧ minLod.isSome = true)) :
    ∃ s' r b' n mask, createImageSample s texelType imageType image sampler
        isNonUniform coordinate compareVal bias lod grad constOffset varOffset
        constOffsets sample minLod residencyCode loc = some (s', r) ∧
      getBlock s'.basicBlocks bid = some b' ∧
      b'.instructions.get? (b.instructions.length + 1) = some n ∧
      n.instr = Instr.imageOp
        (imageSampleOpcodeTable compareVal.isSome
          (lod.isSome || (grad.fst.isSome && grad.snd.isSome))
          residencyCode.isSome)
        texelType loc s.nextId coordinate mask compareVal bias lod grad.fst
        grad.snd constOffset varOffset constOffsets sample minLod none none := by
  have hpre' : (lod.isSome && minLod.isSome) = false := by
    cases hl : lod.isSome <;> cases hm : minLod.isSome <;> simp_all
  cases residencyCode with
  | some rc =>
    obtain ⟨s', r, heq, hr, _, _, _, _, _, hblocks⟩ :=
      createImageSample_sparse_eq s bid texelType imageType image sampler
        isNonUniform coordinate compareVal bias lod grad constOffset varOffset
        constOffsets sample minLod rc loc hip hpre'
    refine ⟨s', r, _,
      ⟨s.nextId + 1, .imageOp
        (imageSampleOp compareVal.isSome
          (lod.isSome || (grad.fst.isSome && grad.snd.isSome)) true)
        texelType loc s.nextId coordinate
        (composeImageOperandsMask s bias lod grad constOffset varOffset
          constOffsets sample minLod).2
        compareVal bias lod grad.fst grad.snd constOffset varOffset constOffsets
        sample minLod none none⟩,
      (composeImageOperandsMask s bias lod grad constOffset varOffset
        constOffsets sample minLod).2,
      heq, hblocks b hb, ?_, ?_⟩
    · simp only [List.get?_eq_getElem?]
      rw [List.getElem?_append_right (by omega)]
      simp
    · rw [imageSampleOp_eq_table]
      rfl
  | none =>
    obtain ⟨s', r, heq, hr, _, _, _, _, _, hblocks⟩ :=
      createImageSample_nonsparse_eq s bid texelType imageType image sampler
        isNonUniform coordinate compareVal bias lod grad constOffset varOffset
        constOffsets sample minLod loc hip hpre'
    refine ⟨s', r, _,
      ⟨s.nextId + 1, .imageOp
        (imageSampleOp compareVal.isSome
          (lod.isSome || (grad.fst.isSome && grad.snd.isSome)) false)
        texelType loc s.nextId coordinate
        (composeImageOperandsMask s bias lod grad constOffset varOffset
          constOffsets sample minLod).2
        compareVal bias lod grad.fst grad.snd constOffset varOffset constOffsets
        sample minLod none none⟩,
      (composeImageOperandsMask s bias lod grad constOffset varOffset
        constOffsets sample minLod).2,
      heq, hblocks b hb, ?_, ?_⟩
    · simp only [List.get?_eq_getElem?]
      rw [List.getElem?_append_right (by omega)]
      simp
    · rw [imageSampleOp_eq_table]
      rfl

/-- C3: whenever a residency-output location is supplied to
`createImageSample`, `createImageFetchOrRead` or `createImageGather`
(cursor positioned; for sampling, Lod and MinLod not both supplied), the
builder adds the `SparseResidency` capability and, after the image
instruction, appends exactly one composite-extract of field 0 of its
result, exactly one store of that status into the residency-output
location, and exactly one composite-extract of field 1 whose node is the
returned value; without a residency-output location none of these three
instructions are appended and the image instruction itself is
returned. -/
theorem sparse_unwrap_spec :
    (∀ (s : SpirvBuilder) (bid : Nat) (texelType imageType : QualType)
       (image sampler : Nat) (isNonUniform : Bool) (coordinate : Nat)
       (compareVal bias lod : Option Nat) (grad : Option Nat × Option Nat)
       (constOffset varOffset constOffsets sample minLod : Option Nat)
       (rc loc : Nat) (b : SpirvBasicBlock),
      s.insertPoint = some bid → getBlock s.basicBlocks bid = some b →
      ¬(lod.isSome = true ∧ minLod.isSome = true) →
      ∃ s' op mask, createImageSample s texelType imageType image sampler
          isNonUniform coordinate compareVal bias lod grad constOffset
          varOffset constOffsets sample minLod (some rc) loc =
            some (s', s.nextId + 4) ∧
        Capability.SparseResidency ∈ s'.module.capabilities ∧
        getBlock s'.basicBlocks bid = some
          { b with instructions := b.instructions ++
              [⟨s.nextId, .sampledImage imageType loc image sampler⟩,
               ⟨s.nextId + 1, .imageOp op texelType loc s.nextId coordinate mask
                  compareVal bias lod grad.fst grad.snd constOffset varOffset
                  constOffsets sample minLod none none⟩,
               ⟨s.nextId + 2, .compositeExtract QualType.unsignedInt 0 (s.nextId + 1) [0]⟩,
               ⟨s.nextId + 3, .store loc rc (s.nextId + 2)⟩,
               ⟨s.nextId + 4, .compositeExtract texelType 0 (s.nextId + 1) [1]⟩] }) ∧
    (∀ (s : SpirvBuilder) (bid : Nat) (texelType imageType : QualType)
       (image sampler : Nat) (isNonUniform : Bool) (coordinate : Nat)
       (compareVal bias lod : Option Nat) (grad : Option Nat × Option Nat)
       (constOffset varOffset constOffsets sample minLod : Option Nat)
       (loc : Nat) (b : SpirvBasicBlock),
      s.insertPoint = some bid → getBlock s.basicBlocks bid = some b →
      ¬(lod.isSome = true ∧ minLod.isSome = true) →
      ∃ s' op mask, createImageSample s texelType imageType image sampler
          isNonUniform coordinate compareVal bias lod grad constOffset
          varOffset constOffsets sample minLod none loc =
            some (s', s.nextId + 1) ∧
        getBlock s'.basicBlocks bid = some
          { b with instructions := b.instructions ++
              [⟨s.nextId, .sampledImage imageType loc image sampler⟩,
               ⟨s.nextId + 1, .imageOp op texelType loc s.nextId coordinate mask
                  compareVal bias lod grad.fst grad.snd constOffset varOffset
                  constOffsets sample minLod none none⟩] }) ∧
    (∀ (s : SpirvBuilder) (bid : Nat) (doImageFetch : Bool)
       (texelType imageType : QualType) (image coordinate : Nat)
       (lod constOffset varOffset constOffsets sample : Option Nat)
       (rc loc : Nat) (b : SpirvBasicBlock),
      s.insertPoint = some bid → getBlock s.basicBlocks bid = some b →
      ∃ s' op mask, createImageFetchOrRead s doImageFetch texelType imageType
          image coordinate lod constOffset varOffset constOffsets sample
          (some rc) loc = some (s', s.nextId + 3) ∧
        Capability.SparseResidency ∈ s'.module.capabilities ∧
        getBlock s'.basicBlocks bid = some
          { b with instructions := b.instructions ++
              [⟨s.nextId, .imageOp op texelType loc image coordinate mask none
                  none lod none none constOffset varOffset constOffsets sample
                  none none none⟩,
               ⟨s.nextId + 1, .compositeExtract QualType.unsignedInt 0 s.nextId [0]⟩,
               ⟨s.nextId + 2, .store loc rc (s.nextId + 1)⟩,
               ⟨s.nextId + 3, .compositeExtract texelType 0 s.nextId [1]⟩] }) ∧
    (∀ (s : SpirvBuilder) (bid : Nat) (doImageFetch : Bool)
       (texelType imageType : QualType) (image coordinate : Nat)
       (lod constOffset varOffset constOffsets sample : Option Nat)
       (loc : Nat) (b : SpirvBasicBlock),
      s.insertPoint = some bid → getBlock s.basicBlocks bid = some b →
      ∃ s' op mask, createImageFetchOrRead s doImageFetch texelType imageType
          image coordinate lod constOffset varOffset constOffsets sample
          none loc = some (s', s.nextId) ∧
        getBlock s'.basicBlocks bid = some
          { b with instructions := b.instructions ++
              [⟨s.nextId, .imageOp op texelType loc image coordinate mask none
                  none lod none none constOffset varOffset constOffsets sample
                  none none none⟩] }) ∧
    (∀ (s : SpirvBuilder) (bid : Nat) (texelType imageType : QualType)
       (image sampler : Nat) (isNonUniform : Bool) (coordinate component : Nat)
       (compareVal constOffset varOffset constOffsets sample : Option Nat)
       (rc loc : Nat) (b : SpirvBasicBlock),
      s.insertPoint = some bid → getBlock s.basicBlocks bid = some b →
      ∃ s' op mask, createImageGather s texelType imageType image sampler
          isNonUniform coordinate component compareVal constOffset varOffset
          constOffsets sample (some rc) loc = some (s', s.nextId + 4) ∧
        Capability.SparseResidency ∈ s'.module.capabilities ∧
        getBlock s'.basicBlocks bid = some
          { b with instructions := b.instructions ++
              [⟨s.nextId, .sampledImage imageType loc image sampler⟩,
               ⟨s.nextId + 1, .imageOp op texelType loc s.nextId coordinate mask
                  compareVal none none none none constOffset varOffset
                  constOffsets sample none (some component) none⟩,
               ⟨s.nextId + 2, .compositeExtract QualType.unsignedInt 0 (s.nextId + 1) [0]⟩,
               ⟨s.nextId + 3, .store 0 rc (s.nextId + 2)⟩,
               ⟨s.nextId + 4, .compositeExtract texelType 0 (s.nextId + 1) [1]⟩] }) ∧
    (∀ (s : SpirvBuilder) (bid : Nat) (texelType imageType : QualType)
       (image sampler : Nat) (isNonUniform : Bool) (coordinate component : Nat)
       (compareVal constOffset varOffset constOffsets sample : Option Nat)
       (loc : Nat) (b : SpirvBasicBlock),
      s.insertPoint = some bid → getBlock s.basicBlocks bid = some b →
      ∃ s' op mask, createImageGather s texelType imageType image sampler
          isNonUniform coordinate component compareVal constOffset varOffset
          constOffsets sample none loc = some (s', s.nextId + 1) ∧
        getBlock s'.basicBlocks bid = some
          { b with instructions := b.instructions ++
              [⟨s.nextId, .sampledImage imageType loc image sampler⟩,
               ⟨s.nextId + 1, .imageOp op texelType loc s.nextId coordinate mask
                  compareVal none none none none constOffset varOffset
                  constOffsets sample none (some component) none⟩] }) := by
  refine ⟨?_, ?_, ?_, ?_, ?_, ?_⟩
  · intro s bid texelType imageType image sampler isNonUniform coordinate
      compareVal bias lod grad constOffset varOffset constOffsets sample minLod
      rc loc b hip hb hpre
    have hpre' : (lod.isSome && minLod.isSome) = false := by
      cases hl : lod.isSome <;> cases hm : minLod.isSome <;> simp_all
    obtain ⟨s', r, heq, hr, _, _, _, _, hmem, hblocks⟩ :=
      createImageSample_sparse_eq s bid texelType imageType image sampler
        isNonUniform coordinate compareVal bias lod grad constOffset varOffset
        constOffsets sample minLod rc loc hip hpre'
    rw [hr] at heq
    exact ⟨s', _, _, heq, hmem, hblocks b hb⟩
  · intro s bid texelType imageType image sampler isNonUniform coordinate
      compareVal bias lod grad constOffset varOffset constOffsets sample minLod
      loc b hip hb hpre
    have hpre' : (lod.isSome && minLod.isSome) = false := by
      cases hl : lod.isSome <;> cases hm : minLod.isSome <;> simp_all
    obtain ⟨s', r, heq, hr, _, _, _, _, _, hblocks⟩ :=
      createImageSample_nonsparse_eq s bid texelType imageType image sampler
        isNonUniform coordinate compareVal bias lod grad constOffset varOffset
        constOffsets sample minLod loc hip hpre'
    rw [hr] at heq
    exact ⟨s', _, _, heq, hblocks b hb⟩
  · intro s bid doImageFetch texelType imageType image coordinate lod
      constOffset varOffset constOffsets sample rc loc b hip hb
    obtain ⟨s', r, heq, hr, _, _, _, _, hmem, hblocks⟩ :=
      createImageFetchOrRead_sparse_eq s bid doImageFetch texelType imageType
        image coordinate lod constOffset varOffset constOffsets sample rc loc hip
    rw [hr] at heq
    exact ⟨s', _, _, heq, hmem, hblocks b hb⟩
  · intro s bid doImageFetch texelType imageType image coordinate lod
      constOffset varOffset constOffsets sample loc b hip hb
    obtain ⟨s', r, heq, hr, _, _, _, _, hblocks⟩ :=
      createImageFetchOrRead_nonsparse_eq s bid doImageFetch texelType imageType
        image coordinate lod constOffset varOffset constOffsets sample loc hip
    rw [hr] at heq
    exact ⟨s', _, _, heq, hblocks b hb⟩
  · intro s bid texelType imageType image sampler isNonUniform coordinate
      component compareVal constOffset varOffset constOffsets sample rc loc b
      hip hb
    obtain ⟨s', r, heq, hr, _, _, _, _, hmem, hblocks⟩ :=
      createImageGather_sparse_eq s bid texelType imageType image sampler
        isNonUniform coordinate component compareVal constOffset varOffset
        constOffsets sample rc loc hip
    rw [hr] at heq
    exact ⟨s', _, _, heq, hmem, hblocks b hb⟩
  · intro s bid texelType imageType image sampler isNonUniform coordinate
      component compareVal constOffset varOffset constOffsets sample loc b hip
      hb
    obtain ⟨s', r, heq, hr, _, _, _, _, hblocks⟩ :=
      createImageGather_nonsparse_eq s bid texelType imageType image sampler
        isNonUniform coordinate component compareVal constOffset varOffset
        constOffsets sample loc hip
    rw [hr] at heq
    exact ⟨s', _, _, heq, hblocks b hb⟩

/-- C8: with the cursor positioned, `createUnaryOp` adds the `ImageQuery`
capability exactly for the image size / levels / samples query opcodes
and `createBinaryOp` adds it exactly for the image Lod / size-Lod query
opcodes; the appended instruction node itself is the same whether or not
the capability side effect fires, and all other opcodes add no
capability. -/
theorem imageQuery_capability_spec (s : SpirvBuilder) (bid : Nat)
    (hip : s.insertPoint = some bid) :
    (∀ (op : Op) (resultType : QualType) (operand loc : Nat),
      ∃ s', createUnaryOp s op resultType operand loc = some (s', s.nextId) ∧
        s'.basicBlocks =
          addToBlock s.basicBlocks bid ⟨s.nextId, .unaryOp op resultType loc operand⟩ ∧
        (∀ c, c ∈ s'.module.capabilities ↔
          c ∈ s.module.capabilities ∨
          ((op = .OpImageQuerySize ∨ op = .OpImageQueryLevels ∨
            op = .OpImageQuerySamples) ∧ c = Capability.ImageQuery))) ∧
    (∀ (op : Op) (resultType : QualType) (lhs rhs loc : Nat),
      ∃ s', createBinaryOp s op resultType lhs rhs loc = some (s', s.nextId) ∧
        s'.basicBlocks =
          addToBlock s.basicBlocks bid ⟨s.nextId, .binaryOp op resultType loc lhs rhs⟩ ∧
        (∀ c, c ∈ s'.module.capabilities ↔
          c ∈ s.module.capabilities ∨
          ((op = .OpImageQueryLod ∨ op = .OpImageQuerySizeLod) ∧
            c = Capability.ImageQuery))) := by
  constructor
  · intro op resultType operand loc
    cases op <;>
      refine ⟨_, by simp only [createUnaryOp, hip]; rfl, by simp, fun c => ?_⟩ <;>
      simp [mem_requireCapability]
  · intro op resultType lhs rhs loc
    cases op <;>
      refine ⟨_, by simp only [createBinaryOp, hip]; rfl, by simp, fun c => ?_⟩ <;>
      simp [mem_requireCapability]

/-- C6: every instruction-emitting operation fails with the "null insert
point" contract violation — modelled as the `none` result, which carries
no appended node and no state change — whenever the insertion cursor is
unset. -/
theorem null_insert_point_rejection (s : SpirvBuilder)
    (hip : s.insertPoint = none) :
    (∀ resultType constituents loc, createCompositeConstruct s resultType constituents loc = none) ∧
    (∀ resultType composite indexes loc, createCompositeExtract s resultType composite indexes loc = none) ∧
    (∀ resultType composite indices object loc, createCompositeInsert s resultType composite indices object loc = none) ∧
    (∀ resultType vector1 vector2 selectors loc, createVectorShuffle s resultType vector1 vector2 selectors loc = none) ∧
    (∀ resultType pointer loc, createLoad s resultType pointer loc = none) ∧
    (∀ address value loc, createStore s address value loc = none) ∧
    (∀ returnType func params loc, createFunctionCall s returnType func params loc = none) ∧
    (∀ resultType base indexes loc, createAccessChain s resultType base indexes loc = none) ∧
    (∀ op resultType operand loc, createUnaryOp s op resultType operand loc = none) ∧
    (∀ op resultType lhs rhs loc, createBinaryOp s op resultType lhs rhs loc = none) ∧
    (∀ op resultType lhs rhs loc, createSpecConstantBinaryOp s op resultType lhs rhs loc = none) ∧
    (∀ op resultType execScope loc, createGroupNonUniformElect s op resultType execScope loc = none) ∧
    (∀ op resultType execScope operand groupOp loc, createGroupNonUniformUnaryOp s op resultType execScope operand groupOp loc = none) ∧
    (∀ op resultType execScope operand1 operand2 loc, createGroupNonUniformBinaryOp s op resultType execScope operand1 operand2 loc = none) ∧
    (∀ opcode resultType ptr scope sem value loc, createAtomicOp s opcode resultType ptr scope sem value loc = none) ∧
    (∀ resultType ptr scope eqSem neqSem value comparator loc, createAtomicCompareExchange s resultType ptr scope eqSem neqSem value comparator loc = none) ∧
    (∀ resultType image coordinate sample loc, createImageTexelPointer s resultType image coordinate sample loc = none) ∧
    (∀ residentCode loc, createImageSparseTexelsResident s residentCode loc = none) ∧
    (∀ resultType condition trueValue falseValue loc, createSelect s resultType condition trueValue falseValue loc = none) ∧
    (∀ mergeLabel selector defaultLabel target loc, createSwitch s mergeLabel selector defaultLabel target loc = none) ∧
    (∀ loc, createKill s loc = none) ∧
    (∀ targetLabel mergeBB continueBB loopControl loc, createBranch s targetLabel mergeBB continueBB loopControl loc = none) ∧
    (∀ condition trueLabel falseLabel mergeLabel continueLabel selectionControl loopControl loc, createConditionalBranch s condition trueLabel falseLabel mergeLabel continueLabel selectionControl loopControl loc = none) ∧
    (∀ loc, createReturn s loc = none) ∧
    (∀ value loc, createReturnValue s value loc = none) ∧
    (∀ resultType set inst operands loc, createExtInst s resultType set inst operands loc = none) ∧
    (∀ memoryScope memorySemantics exec loc, createBarrier s memoryScope memorySemantics exec loc = none) ∧
    (∀ resultType base insertVal offset count loc, createBitFieldInsert s resultType base insertVal offset count loc = none) ∧
    (∀ resultType base offset count isSigned loc, createBitFieldExtract s resultType base offset count isSigned loc = none) ∧
    (∀ texelType imageType image sampler isNonUniform coordinate compareVal bias lod grad constOffset varOffset constOffsets sample minLod residencyCode loc, createImageSample s texelType imageType image sampler isNonUniform coordinate compareVal bias lod grad constOffset varOffset constOffsets sample minLod residencyCode loc = none) ∧
    (∀ doImageFetch texelType imageType image coordinate lod constOffset varOffset constOffsets sample residencyCode loc, createImageFetchOrRead s doImageFetch texelType imageType image coordinate lod constOffset varOffset constOffsets sample residencyCode loc = none) ∧
    (∀ imageType image coord texel loc, createImageWrite s imageType image coord texel loc = none) ∧
    (∀ texelType imageType image sampler isNonUniform coordinate component compareVal constOffset varOffset constOffsets sample residencyCode loc, createImageGather s texelType imageType image sampler isNonUniform coordinate component compareVal constOffset varOffset constOffsets sample residencyCode loc = none) := by
  repeat' constructor
  all_goals intros
  all_goals simp only [createCompositeConstruct, createCompositeExtract,
    createCompositeInsert, createVectorShuffle, createLoad, createStore,
    createFunctionCall, createAccessChain, createUnaryOp, createBinaryOp,
    createSpecConstantBinaryOp, createGroupNonUniformElect,
    createGroupNonUniformUnaryOp, createGroupNonUniformBinaryOp,
    createAtomicOp, createAtomicCompareExchange, createImageTexelPointer,
    createImageSparseTexelsResident, createSelect, createSwitch, createKill,
    createBranch, createConditionalBranch, createReturn, createReturnValue,
    createExtInst, createBarrier, createBitFieldInsert, createBitFieldExtract,
    createImageSample, createImageFetchOrRead, createImageWrite,
    createImageGather, hip]

/-! ### The Idle invariant -/

/-- Whenever no function is open, the pending basic-block list is empty
and the insertion cursor is unset. -/
def IdleInv (s : SpirvBuilder) : Prop :=
  s.function = none → s.basicBlocks = [] ∧ s.insertPoint = none

theorem idleInv_init : IdleInv SpirvBuilder.init := by
  intro h
  exact ⟨rfl, rfl⟩

theorem idleInv_of_frame (s s' : SpirvBuilder) (inv : IdleInv s)
    (hfun : s'.function = s.function) (hip : s.insertPoint ≠ none) :
    IdleInv s' := by
  intro h
  rw [hfun] at h
  exact absurd (inv h).2 hip

theorem createImageSample_frame (s : SpirvBuilder)
    (texelType imageType : QualType) (image sampler : Nat)
    (isNonUniform : Bool) (coordinate : Nat) (compareVal bias lod : Option Nat)
    (grad : Option Nat × Option Nat)
    (constOffset varOffset constOffsets sample minLod residencyCode : Option Nat)
    (loc : Nat) (s' : SpirvBuilder) (r : Nat)
    (h : createImageSample s texelType imageType image sampler isNonUniform
      coordinate compareVal bias lod grad constOffset varOffset constOffsets
      sample minLod residencyCode loc = some (s', r)) :
    s'.function = s.function ∧ s.insertPoint ≠ none := by
  cases hip : s.insertPoint with
  | none => simp [createImageSample, hip] at h
  | some bid =>
    refine ⟨?_, by simp [hip]⟩
    cases hpre : (lod.isSome && minLod.isSome) with
    | true => simp [createImageSample, hip, hpre] at h
    | false =>
      cases residencyCode with
      | none =>
        obtain ⟨s2, r2, heq, _, _, hfun, _⟩ :=
          createImageSample_nonsparse_eq s bid texelType imageType image
            sampler isNonUniform coordinate compareVal bias lod grad constOffset
            varOffset constOffsets sample minLod loc hip hpre
        rw [heq, Option.some.injEq, Prod.mk.injEq] at h
        rw [← h.1]
        exact hfun
      | some rc =>
        obtain ⟨s2, r2, heq, _, _, hfun, _⟩ :=
          createImageSample_sparse_eq s bid texelType imageType image sampler
            isNonUniform coordinate compareVal bias lod grad constOffset
            varOffset constOffsets sample minLod rc loc hip hpre
        rw [heq, Option.some.injEq, Prod.mk.injEq] at h
        rw [← h.1]
        exact hfun

theorem createImageFetchOrRead_frame (s : SpirvBuilder) (doImageFetch : Bool)
    (texelType imageType : QualType) (image coordinate : Nat)
    (lod constOffset varOffset constOffsets sample residencyCode : Option Nat)
    (loc : Nat) (s' : SpirvBuilder) (r : Nat)
    (h : createImageFetchOrRead s doImageFetch texelType imageType image
      coordinate lod constOffset varOffset constOffsets sample residencyCode
      loc = some (s', r)) :
    s'.function = s.function ∧ s.insertPoint ≠ none := by
  cases hip : s.insertPoint with
  | none => simp [createImageFetchOrRead, hip] at h
  | some bid =>
    refine ⟨?_, by simp [hip]⟩
    cases residencyCode with
    | none =>
      obtain ⟨s2, r2, heq, _, _, hfun, _⟩ :=
        createImageFetchOrRead_nonsparse_eq s bid doImageFetch texelType
          imageType image coordinate lod constOffset varOffset constOffsets
          sample loc hip
      rw [heq, Option.some.injEq, Prod.mk.injEq] at h
      rw [← h.1]
      exact hfun
    | some rc =>
      obtain ⟨s2, r2, heq, _, _, hfun, _⟩ :=
        createImageFetchOrRead_sparse_eq s bid doImageFetch texelType imageType
          image coordinate lod constOffset varOffset constOffsets sample rc loc
          hip
      rw [heq, Option.some.injEq, Prod.mk.injEq] at h
      rw [← h.1]
      exact hfun

theorem createImageGather_frame (s : SpirvBuilder)
    (texelType imageType : QualType) (image sampler : Nat)
    (isNonUniform : Bool) (coordinate component : Nat)
    (compareVal constOffset varOffset constOffsets sample residencyCode : Option Nat)
    (loc : Nat) (s' : SpirvBuilder) (r : Nat)
    (h : createImageGather s texelType imageType image sampler isNonUniform
      coordinate component compareVal constOffset varOffset constOffsets sample
      residencyCode loc = some (s', r)) :
    s'.function = s.function ∧ s.insertPoint ≠ none := by
  cases hip : s.insertPoint with
  | none => simp [createImageGather, hip] at h
  | some bid =>
    refine ⟨?_, by simp [hip]⟩
    cases residencyCode with
    | none =>
      obtain ⟨s2, r2, heq, _, _, hfun, _⟩ :=
        createImageGather_nonsparse_eq s bid texelType imageType image sampler
          isNonUniform coordinate component compareVal constOffset varOffset
          constOffsets sample loc hip
      rw [heq, Option.some.injEq, Prod.mk.injEq] at h
      rw [← h.1]
      exact hfun
    | some rc =>
      obtain ⟨s2, r2, heq, _, _, hfun, _⟩ :=
        createImageGather_sparse_eq s bid texelType imageType image sampler
          isNonUniform coordinate component compareVal constOffset varOffset
          constOffsets sample rc loc hip
      rw [heq, Option.some.injEq, Prod.mk.injEq] at h
      rw [← h.1]
      exact hfun

theorem applyOp_idleInv (s s' : SpirvBuilder) (op : BuilderOp)
    (h : applyOp s op = some s') (inv : IdleInv s) : IdleInv s' := by
  cases op with
  | beginFunction rt loc nm =>
    cases hf : s.function with
    | some f => simp [applyOp, beginFunction, hf] at h
    | none =>
      simp only [applyOp, beginFunction, hf, Option.map_some', Option.some.injEq] at h
      intro h0
      rw [← h] at h0
      simp at h0
  | addFnParam pt loc nm =>
    cases hf : s.function with
    | none => simp [applyOp, addFnParam, hf] at h
    | some f =>
      simp only [applyOp, addFnParam, hf, Option.map_some', Option.some.injEq] at h
      intro h0
      rw [← h] at h0
      simp at h0
  | addFnVar vt loc nm init =>
    cases hf : s.function with
    | none => simp [applyOp, addFnVar, hf] at h
    | some f =>
      simp only [applyOp, addFnVar, hf, Option.map_some', Option.some.injEq] at h
      intro h0
      rw [← h] at h0
      simp at h0
  | endFunction =>
    cases hf : s.function with
    | none => simp [applyOp, endFunction, hf] at h
    | some f =>
      simp only [applyOp, endFunction, hf, Option.some.injEq] at h
      intro h0
      exact ⟨by rw [← h], by rw [← h]⟩
  | createBasicBlock nm =>
    cases hf : s.function with
    | none => simp [applyOp, createBasicBlock, hf] at h
    | some f =>
      simp only [applyOp, createBasicBlock, hf, Option.map_some', Option.some.injEq] at h
      intro h0
      rw [← h] at h0
      simp [hf] at h0
  | setInsertPoint bid =>
    cases hf : s.function with
    | none => simp [applyOp, setInsertPoint, hf] at h
    | some f =>
      cases hg : getBlock s.basicBlocks bid with
      | none => simp [applyOp, setInsertPoint, hf, hg] at h
      | some bb =>
        simp only [applyOp, setInsertPoint, hf, hg, Option.some.injEq] at h
        intro h0
        rw [← h] at h0
        simp [hf] at h0
  | addSuccessor succ =>
    cases hip : s.insertPoint with
    | none => simp [applyOp, addSuccessor, hip] at h
    | some bid =>
      simp only [applyOp, addSuccessor, hip, Option.some.injEq] at h
      exact idleInv_of_frame s s' inv (by rw [← h]) (by simp [hip])
  | setMergeTarget m =>
    cases hip : s.insertPoint with
    | none => simp [applyOp, setMergeTarget, hip] at h
    | some bid =>
      simp only [applyOp, setMergeTarget, hip, Option.some.injEq] at h
      exact idleInv_of_frame s s' inv (by rw [← h]) (by simp [hip])
  | setContinueTarget c =>
    cases hip : s.insertPoint with
    | none => simp [applyOp, setContinueTarget, hip] at h
    | some bid =>
      simp only [applyOp, setContinueTarget, hip, Option.some.injEq] at h
      exact idleInv_of_frame s s' inv (by rw [← h]) (by simp [hip])
  | createCompositeConstruct rt cs loc =>
    cases hip : s.insertPoint with
    | none => simp [applyOp, createCompositeConstruct, hip] at h
    | some bid =>
      simp only [applyOp, createCompositeConstruct, hip, Option.map_some',
        Option.some.injEq] at h
      exact idleInv_of_frame s s' inv (by rw [← h]; rfl) (by simp [hip])
  | createCompositeExtract rt c ix loc =>
    cases hip : s.insertPoint with
    | none => simp [applyOp, createCompositeExtract, hip] at h
    | some bid =>
      simp only [applyOp, createCompositeExtract, hip, Option.map_some',
        Option.some.injEq] at h
      exact idleInv_of_frame s s' inv (by rw [← h]; rfl) (by simp [hip])
  | createCompositeInsert rt c ix ob loc =>
    cases hip : s.insertPoint with
    | none => simp [applyOp, createCompositeInsert, hip] at h
    | some bid =>
      simp only [applyOp, createCompositeInsert, hip, Option.map_some',
        Option.some.injEq] at h
      exact idleInv_of_frame s s' inv (by rw [← h]; rfl) (by simp [hip])
  | createVectorShuffle rt v1 v2 sel loc =>
    cases hip : s.insertPoint with
    | none => simp [applyOp, createVectorShuffle, hip] at h
    | some bid =>
      simp only [applyOp, createVectorShuffle, hip, Option.map_some',
        Option.some.injEq] at h
      exact idleInv_of_frame s s' inv (by rw [← h]; rfl) (by simp [hip])
  | createLoad rt p loc =>
    cases hip : s.insertPoint with
    | none => simp [applyOp, createLoad, hip] at h
    | some bid =>
      simp only [applyOp, createLoad, hip, Option.map_some', Option.some.injEq] at h
      exact idleInv_of_frame s s' inv (by rw [← h]; rfl) (by simp [hip])
  | createStore a v loc =>
    cases hip : s.insertPoint with
    | none => simp [applyOp, createStore, hip] at h
    | some bid =>
      simp only [applyOp, createStore, hip, Option.some.injEq] at h
      exact idleInv_of_frame s s' inv (by rw [← h]; rfl) (by simp [hip])
  | createFunctionCall rt f ps loc =>
    cases hip : s.insertPoint with
    | none => simp [applyOp, createFunctionCall, hip] at h
    | some bid =>
      simp only [applyOp, createFunctionCall, hip, Option.map_some',
        Option.some.injEq] at h
      exact idleInv_of_frame s s' inv (by rw [← h]; rfl) (by simp [hip])
  | createAccessChain rt b ix loc =>
    cases hip : s.insertPoint with
    | none => simp [applyOp, createAccessChain, hip] at h
    | some bid =>
      simp only [applyOp, createAccessChain, hip, Option.map_some',
        Option.some.injEq] at h
      exact idleInv_of_frame s s' inv (by rw [← h]; rfl) (by simp [hip])
  | createUnaryOp op rt o loc =>
    cases hip : s.insertPoint with
    | none => simp [applyOp, createUnaryOp, hip] at h
    | some bid =>
      cases op <;>
        (simp only [applyOp, createUnaryOp, hip, Option.map_some',
          Option.some.injEq] at h;
         exact idleInv_of_frame s s' inv (by rw [← h]; rfl) (by simp [hip]))
  | createBinaryOp op rt l r loc =>
    cases hip : s.insertPoint with
    | none => simp [applyOp, createBinaryOp, hip] at h
    | some bid =>
      cases op <;>
        (simp only [applyOp, createBinaryOp, hip, Option.map_some',
          Option.some.injEq] at h;
         exact idleInv_of_frame s s' inv (by rw [← h]; rfl) (by simp [hip]))
  | createSpecConstantBinaryOp op rt l r loc =>
    cases hip : s.insertPoint with
    | none => simp [applyOp, createSpecConstantBinaryOp, hip] at h
    | some bid =>
      simp only [applyOp, createSpecConstantBinaryOp, hip, Option.map_some',
        Option.some.injEq] at h
      exact idleInv_of_frame s s' inv (by rw [← h]; rfl) (by simp [hip])
  | createGroupNonUniformElect op rt es loc =>
    cases hip : s.insertPoint with
    | none => simp [applyOp, createGroupNonUniformElect, hip] at h
    | some bid =>
      simp only [applyOp, createGroupNonUniformElect, hip, Option.map_some',
        Option.some.injEq] at h
      exact idleInv_of_frame s s' inv (by rw [← h]; rfl) (by simp [hip])
  | createGroupNonUniformUnaryOp op rt es o go loc =>
    cases hip : s.insertPoint with
    | none => simp [applyOp, createGroupNonUniformUnaryOp, hip] at h
    | some bid =>
      simp only [applyOp, createGroupNonUniformUnaryOp, hip, Option.map_some',
        Option.some.injEq] at h
      exact idleInv_of_frame s s' inv (by rw [← h]; rfl) (by simp [hip])
  | createGroupNonUniformBinaryOp op rt es o1 o2 loc =>
    cases hip : s.insertPoint with
    | none => simp [applyOp, createGroupNonUniformBinaryOp, hip] at h
    | some bid =>
      simp only [applyOp, createGroupNonUniformBinaryOp, hip, Option.map_some',
        Option.some.injEq] at h
      exact idleInv_of_frame s s' inv (by rw [← h]; rfl) (by simp [hip])
  | createAtomicOp opc rt p sc sem v loc =>
    cases hip : s.insertPoint with
    | none => simp [applyOp, createAtomicOp, hip] at h
    | some bid =>
      simp only [applyOp, createAtomicOp, hip, Option.map_some',
        Option.some.injEq] at h
      exact idleInv_of_frame s s' inv (by rw [← h]; rfl) (by simp [hip])
  | createAtomicCompareExchange rt p sc es us v cmp loc =>
    cases hip : s.insertPoint with
    | none => simp [applyOp, createAtomicCompareExchange, hip] at h
    | some bid =>
      simp only [applyOp, createAtomicCompareExchange, hip, Option.map_some',
        Option.some.injEq] at h
      exact idleInv_of_frame s s' inv (by rw [← h]; rfl) (by simp [hip])
  | createImageTexelPointer rt im co sa loc =>
    cases hip : s.insertPoint with
    | none => simp [applyOp, createImageTexelPointer, hip] at h
    | some bid =>
      simp only [applyOp, createImageTexelPointer, hip, Option.map_some',
        Option.some.injEq] at h
      exact idleInv_of_frame s s' inv (by rw [← h]; rfl) (by simp [hip])
  | createImageSparseTexelsResident rc loc =>
    cases hip : s.insertPoint with
    | none => simp [applyOp, createImageSparseTexelsResident, hip] at h
    | some bid =>
      simp only [applyOp, createImageSparseTexelsResident, hip, Option.map_some',
        Option.some.injEq] at h
      exact idleInv_of_frame s s' inv (by rw [← h]; rfl) (by simp [hip])
  | createSelect rt c tv fv loc =>
    cases hip : s.insertPoint with
    | none => simp [applyOp, createSelect, hip] at h
    | some bid =>
      simp only [applyOp, createSelect, hip, Option.map_some',
        Option.some.injEq] at h
      exact idleInv_of_frame s s' inv (by rw [← h]; rfl) (by simp [hip])
  | createSwitch m sel d ts loc =>
    cases hip : s.insertPoint with
    | none => simp [applyOp, createSwitch, hip] at h
    | some bid =>
      simp only [applyOp, createSwitch, hip, Option.some.injEq] at h
      exact idleInv_of_frame s s' inv (by rw [← h]; rfl) (by simp [hip])
  | createKill loc =>
    cases hip : s.insertPoint with
    | none => simp [applyOp, createKill, hip] at h
    | some bid =>
      simp only [applyOp, createKill, hip, Option.some.injEq] at h
      exact idleInv_of_frame s s' inv (by rw [← h]; rfl) (by simp [hip])
  | createBranch t mbb cbb lc loc =>
    cases hip : s.insertPoint with
    | none => simp [applyOp, createBranch, hip] at h
    | some bid =>
      cases mbb <;> cases cbb <;>
        (simp only [applyOp, createBranch, hip, Option.some.injEq] at h;
         exact idleInv_of_frame s s' inv (by rw [← h]; rfl) (by simp [hip]))
  | createConditionalBranch c tl fl ml cl sc lc loc =>
    cases hip : s.insertPoint with
    | none => simp [applyOp, createConditionalBranch, hip] at h
    | some bid =>
      cases ml <;> cases cl <;>
        (simp only [applyOp, createConditionalBranch, hip, Option.some.injEq] at h;
         exact idleInv_of_frame s s' inv (by rw [← h]; rfl) (by simp [hip]))
  | createReturn loc =>
    cases hip : s.insertPoint with
    | none => simp [applyOp, createReturn, hip] at h
    | some bid =>
      simp only [applyOp, createReturn, hip, Option.some.injEq] at h
      exact idleInv_of_frame s s' inv (by rw [← h]; rfl) (by simp [hip])
  | createReturnValue v loc =>
    cases hip : s.insertPoint with
    | none => simp [applyOp, createReturnValue, hip] at h
    | some bid =>
      simp only [applyOp, createReturnValue, hip, Option.some.injEq] at h
      exact idleInv_of_frame s s' inv (by rw [← h]; rfl) (by simp [hip])
  | createExtInst rt st inst ops loc =>
    cases hip : s.insertPoint with
    | none => simp [applyOp, createExtInst, hip] at h
    | some bid =>
      simp only [applyOp, createExtInst, hip, Option.map_some',
        Option.some.injEq] at h
      exact idleInv_of_frame s s' inv (by rw [← h]; rfl) (by simp [hip])
  | createBarrier ms sem ex loc =>
    cases hip : s.insertPoint with
    | none => simp [applyOp, createBarrier, hip] at h
    | some bid =>
      simp only [applyOp, createBarrier, hip, Option.some.injEq] at h
      exact idleInv_of_frame s s' inv (by rw [← h]; rfl) (by simp [hip])
  | createBitFieldInsert rt b iv o ct loc =>
    cases hip : s.insertPoint with
    | none => simp [applyOp, createBitFieldInsert, hip] at h
    | some bid =>
      simp only [applyOp, createBitFieldInsert, hip, Option.map_some',
        Option.some.injEq] at h
      exact idleInv_of_frame s s' inv (by rw [← h]; rfl) (by simp [hip])
  | createBitFieldExtract rt b o ct sg loc =>
    cases hip : s.insertPoint with
    | none => simp [applyOp, createBitFieldExtract, hip] at h
    | some bid =>
      simp only [applyOp, createBitFieldExtract, hip, Option.map_some',
        Option.some.injEq] at h
      exact idleInv_of_frame s s' inv (by rw [← h]; rfl) (by simp [hip])
  | createImageWrite it im co tx loc =>
    cases hip : s.insertPoint with
    | none => simp [applyOp, createImageWrite, hip] at h
    | some bid =>
      simp only [applyOp, createImageWrite, hip, Option.some.injEq] at h
      exact idleInv_of_frame s s' inv (by rw [← h]; rfl) (by simp [hip])
  | createImageSample tt it im sp nu co cv bi lo gr cof vof cofs sa ml rc loc =>
    rw [applyOp, Option.map_eq_some'] at h
    obtain ⟨⟨s2, r⟩, heq, hps⟩ := h
    have hf := createImageSample_frame s tt it im sp nu co cv bi lo gr cof vof
      cofs sa ml rc loc s2 r heq
    exact idleInv_of_frame s s' inv (hps ▸ hf.1) hf.2
  | createImageFetchOrRead df tt it im co lo cof vof cofs sa rc loc =>
    rw [applyOp, Option.map_eq_some'] at h
    obtain ⟨⟨s2, r⟩, heq, hps⟩ := h
    have hf := createImageFetchOrRead_frame s df tt it im co lo cof vof cofs sa
      rc loc s2 r heq
    exact idleInv_of_frame s s' inv (hps ▸ hf.1) hf.2
  | createImageGather tt it im sp nu co cp cv cof vof cofs sa rc loc =>
    rw [applyOp, Option.map_eq_some'] at h
    obtain ⟨⟨s2, r⟩, heq, hps⟩ := h
    have hf := createImageGather_frame s tt it im sp nu co cp cv cof vof cofs
      sa rc loc s2 r heq
    exact idleInv_of_frame s s' inv (hps ▸ hf.1) hf.2
  | createEmitVertex loc =>
    simp only [applyOp, createEmitVertex, Option.some.injEq] at h
    rw [← h]
    exact inv
  | createEndPrimitive loc =>
    simp only [applyOp, createEndPrimitive, Option.some.injEq] at h
    rw [← h]
    exact inv

theorem applyOps_idleInv (ops : List BuilderOp) :
    ∀ s s' : SpirvBuilder, IdleInv s → applyOps s ops = some s' → IdleInv s' := by
  induction ops with
  | nil =>
    intro s s' inv h
    simp only [applyOps, Option.some.injEq] at h
    rw [← h]
    exact inv
  | cons op ops ih =>
    intro s s' inv h
    simp only [applyOps] at h
    cases happ : applyOp s op with
    | none => rw [happ] at h; exact absurd h (by simp)
    | some s2 =>
      rw [happ] at h
      exact ih s2 s' (applyOp_idleInv s s2 op happ inv) h

/-- C10: in every state reachable through contract-respecting builder
operation sequences, Idle (no active function) implies the pending
basic-block list is empty and the cursor is unset; consequently
`beginFunction` — which touches neither the pending list nor the
cursor — always produces a FunctionOpen state with an empty pending list
and an unset cursor. -/
theorem idle_invariant (s : SpirvBuilder) (hs : Reachable s) :
    (s.function = none → s.basicBlocks = [] ∧ s.insertPoint = none) ∧
    (∀ (returnType : QualType) (loc : Nat) (funcName : String)
       (s' : SpirvBuilder) (fid : Nat),
      beginFunction s returnType loc funcName = some (s', fid) →
      s'.basicBlocks = [] ∧ s'.insertPoint = none ∧ s'.function.isSome = true) := by
  obtain ⟨ops, hops⟩ := hs
  have inv : IdleInv s := applyOps_idleInv ops SpirvBuilder.init s idleInv_init hops
  refine ⟨inv, ?_⟩
  intro returnType loc funcName s' fid h
  cases hf : s.function with
  | some f => simp [beginFunction, hf] at h
  | none =>
    obtain ⟨hbb, hcur⟩ := inv hf
    rw [beginFunction, hf, Option.some.injEq, Prod.mk.injEq] at h
    refine ⟨?_, ?_, ?_⟩ <;> rw [← h.1]
    · exact hbb
    · exact hcur
    · rfl

/-! ### Concrete witness states -/

/-- A concrete FunctionOpen builder state with one pending block (handle
1) and the cursor positioned on it, used to instantiate the claim
theorems. -/
def openBuilder : SpirvBuilder :=
  { module := { functions := [], capabilities := [] }
    function := some
      { id := 0, returnType := QualType.otherTy 0, loc := 0, funcName := "main"
        parameters := [], localVariables := [], basicBlocks := [] }
    basicBlocks :=
      [{ id := 1, name := "entry", instructions := [], successors := []
         mergeTarget := none, continueTarget := none }]
    insertPoint := some 1
    nextId := 2 }

/-- The pending block of `openBuilder`. -/
def openBlock : SpirvBasicBlock :=
  { id := 1, name := "entry", instructions := [], successors := []
    mergeTarget := none, continueTarget := none }

/-- Witness for C1: a concrete depth-comparison, explicit-Lod, sparse
sample call on `openBuilder` hits the `OpImageSparseSampleDrefExplicitLod`
row of the table. -/
theorem createImageSample_opcode_of_table_witness :
    (openBuilder.insertPoint = some 1 ∧
     getBlock openBuilder.basicBlocks 1 = some openBlock ∧
     ¬((some 3 : Option Nat).isSome = true ∧ (none : Option Nat).isSome = true)) ∧
    (∃ s' r b' n mask, createImageSample openBuilder (QualType.otherTy 1)
        (QualType.otherTy 2) 10 11 false 12 (some 9) none (some 3)
        (none, none) none none none none none (some 13) 0 = some (s', r) ∧
      getBlock s'.basicBlocks 1 = some b' ∧
      b'.instructions.get? (openBlock.instructions.length + 1) = some n ∧
      n.instr = Instr.imageOp
        (imageSampleOpcodeTable true true true)
        (QualType.otherTy 1) 0 openBuilder.nextId 12 mask (some 9) none
        (some 3) none none none none none none none none none) :=
  ⟨⟨rfl, rfl, by decide⟩,
   createImageSample_opcode_of_table openBuilder 1 (QualType.otherTy 1)
     (QualType.otherTy 2) 10 11 false 12 (some 9) none (some 3) (none, none)
     none none none none none (some 13) 0 openBlock rfl rfl (by decide)⟩

/-- Witness for C3: a concrete sparse gather call on `openBuilder`
produces the status-extract / store / texel-extract unwrap. -/
theorem sparse_unwrap_spec_witness :
    (openBuilder.insertPoint = some 1 ∧
     getBlock openBuilder.basicBlocks 1 = some openBlock) ∧
    (∃ s' op mask, createImageGather openBuilder (QualType.otherTy 1)
        (QualType.otherTy 2) 10 11 false 12 13 none none none none none
        (some 7) 0 = some (s', openBuilder.nextId + 4) ∧
      Capability.SparseResidency ∈ s'.module.capabilities ∧
      getBlock s'.basicBlocks 1 = some
        { openBlock with instructions := openBlock.instructions ++
            [⟨openBuilder.nextId, .sampledImage (QualType.otherTy 2) 0 10 11⟩,
             ⟨openBuilder.nextId + 1, .imageOp op (QualType.otherTy 1) 0
                openBuilder.nextId 12 mask none none none none none none none
                none none none (some 13) none⟩,
             ⟨openBuilder.nextId + 2,
                .compositeExtract QualType.unsignedInt 0 (openBuilder.nextId + 1) [0]⟩,
             ⟨openBuilder.nextId + 3, .store 0 7 (openBuilder.nextId + 2)⟩,
             ⟨openBuilder.nextId + 4,
                .compositeExtract (QualType.otherTy 1) 0 (openBuilder.nextId + 1) [1]⟩] }) :=
  ⟨⟨rfl, rfl⟩,
   sparse_unwrap_spec.2.2.2.2.1 openBuilder 1 (QualType.otherTy 1)
     (QualType.otherTy 2) 10 11 false 12 13 none none none none none 7 0
     openBlock rfl rfl⟩

/-- Witness for C4: a conditional branch with a merge label and no
continue label on `openBuilder` emits a selection-merge marker and then
the conditional branch. -/
theorem createConditionalBranch_markers_witness :
    (openBuilder.insertPoint = some 1 ∧
     getBlock openBuilder.basicBlocks 1 = some openBlock) ∧
    (∃ s', createConditionalBranch openBuilder 30 31 32 (some 20) none 4 5 0 =
        some s' ∧
      getBlock s'.basicBlocks 1 = some
        { openBlock with instructions := openBlock.instructions ++
            [⟨openBuilder.nextId, .selectionMerge 0 20 4⟩,
             ⟨openBuilder.nextId + 1, .branchConditional 0 30 31 32⟩] }) :=
  ⟨⟨rfl, rfl⟩,
   createConditionalBranch_markers openBuilder 1 30 31 32 (some 20) none 4 5 0
     openBlock rfl rfl⟩

/-- Witness for C5: a branch with both merge and continue blocks on
`openBuilder` emits a loop-merge marker and then the branch. -/
theorem createBranch_markers_witness :
    (openBuilder.insertPoint = some 1 ∧
     getBlock openBuilder.basicBlocks 1 = some openBlock) ∧
    (∃ s', createBranch openBuilder 30 (some 20) (some 21) 6 0 = some s' ∧
      getBlock s'.basicBlocks 1 = some
        { openBlock with instructions := openBlock.instructions ++
            [⟨openBuilder.nextId, .loopMerge 0 20 21 6⟩,
             ⟨openBuilder.nextId + 1, .branch 0 30⟩] }) :=
  ⟨⟨rfl, rfl⟩,
   createBranch_markers openBuilder 1 30 (some 20) (some 21) 6 0 openBlock rfl rfl⟩

/-- Witness for C6: on the freshly constructed builder (cursor unset),
`createLoad` and `createImageSample` are rejected with no effect. -/
theorem null_insert_point_rejection_witness :
    SpirvBuilder.init.insertPoint = none ∧
    createLoad SpirvBuilder.init (QualType.otherTy 0) 0 0 = none ∧
    createImageSample SpirvBuilder.init (QualType.otherTy 1)
      (QualType.otherTy 2) 10 11 false 12 none none none (none, none) none
      none none none none none 0 = none := by
  obtain ⟨h1, h2, h3, h4, h5, h6, h7, h8, h9, h10, h11, h12, h13, h14, h15,
    h16, h17, h18, h19, h20, h21, h22, h23, h24, h25, h26, h27, h28, h29, h30,
    h31, h32, h33⟩ := null_insert_point_rejection SpirvBuilder.init rfl
  exact ⟨rfl, h5 _ _ _, h30 _ _ _ _ _ _ _ _ _ _ _ _ _ _ _ _ _⟩

/-- Witness for C7: closing the function of `openBuilder` attaches the
pending block and returns to Idle; `endFunction` on the fresh Idle
builder fails. -/
theorem endFunction_spec_witness :
    (openBuilder.function = some
      { id := 0, returnType := QualType.otherTy 0, loc := 0, funcName := "main"
        parameters := [], localVariables := [], basicBlocks := [] } ∧
     SpirvBuilder.init.function = none) ∧
    (endFunction openBuilder = some
      { module :=
          { functions :=
              [{ id := 0, returnType := QualType.otherTy 0, loc := 0
                 funcName := "main", parameters := [], localVariables := []
                 basicBlocks := [openBlock] }]
            capabilities := [] }
        function := none
        basicBlocks := []
        insertPoint := none
        nextId := 2 } ∧
     endFunction SpirvBuilder.init = none) :=
  ⟨⟨rfl, rfl⟩,
   (endFunction_spec openBuilder).1 _ rfl,
   (endFunction_spec SpirvBuilder.init).2 rfl⟩

/-- Witness for C8: an `OpImageQuerySize` unary op on `openBuilder` adds
the `ImageQuery` capability and appends the expected node. -/
theorem imageQuery_capability_spec_witness :
    openBuilder.insertPoint = some 1 ∧
    (∃ s', createUnaryOp openBuilder Op.OpImageQuerySize (QualType.otherTy 3)
        5 0 = some (s', openBuilder.nextId) ∧
      s'.basicBlocks = addToBlock openBuilder.basicBlocks 1
        ⟨openBuilder.nextId, .unaryOp Op.OpImageQuerySize (QualType.otherTy 3) 0 5⟩ ∧
      (∀ c, c ∈ s'.module.capabilities ↔
        c ∈ openBuilder.module.capabilities ∨
        ((Op.OpImageQuerySize = Op.OpImageQuerySize ∨
          Op.OpImageQuerySize = Op.OpImageQueryLevels ∨
          Op.OpImageQuerySize = Op.OpImageQuerySamples) ∧
          c = Capability.ImageQuery))) :=
  ⟨rfl, (imageQuery_capability_spec openBuilder 1 rfl).1 Op.OpImageQuerySize
    (QualType.otherTy 3) 5 0⟩

/-- Witness for C10: the freshly constructed builder is reachable (empty
operation sequence); it is Idle with no pending blocks and no cursor, and
opening a function from it yields an empty pending list and an unset
cursor. -/
theorem idle_invariant_witness :
    (SpirvBuilder.init.basicBlocks = [] ∧ SpirvBuilder.init.insertPoint = none) ∧
    (∃ s' fid, beginFunction SpirvBuilder.init (QualType.otherTy 0) 0 "main" =
        some (s', fid) ∧
      s'.basicBlocks = [] ∧ s'.insertPoint = none ∧ s'.function.isSome = true) := by
  have h := idle_invariant SpirvBuilder.init ⟨[], rfl⟩
  refine ⟨h.1 rfl, ?_⟩
  obtain ⟨s', fid, heq⟩ :
      ∃ s' fid, beginFunction SpirvBuilder.init (QualType.otherTy 0) 0 "main" =
        some (s', fid) := ⟨_, _, rfl⟩
  exact ⟨s', fid, heq, h.2 (QualType.otherTy 0) 0 "main" s' fid heq⟩

end Spirv
